import Mathlib

/-
Verification of the code-validation engine in level_manager.py
(class LevelManager) against its natural-language specification.

The engine validates learner-submitted Python snippets against a catalog of
ten exercises.  The embedding below models, from the source:
  - the value domain of test inputs / expected outputs (Python None, bool,
    numbers, strings, lists and tuples);
  - LevelManager.compare_outputs, the tolerant output comparator;
  - the exercise catalog (levels_data) built by initialize_levels, at the
    granularity the engine logic reads it: per-level test cases, error lists,
    and which dictionary keys each record carries;
  - validate_level_data_integrity;
  - extract_main_function (ast.walk based);
  - detect_level_type, the per-level test harnesses, execute_test_cases and
    validate_solution.
Submitted source snippets are untrusted Python whose own semantics is outside
the engine; a submission enters the model through the observable behaviour the
engine extracts from it: its parse result (ast.parse), the outcome of
exec(code, safe_globals), and the call behaviour of the namespace it defines.
-/

/-- The domain of values that appear as test-case inputs and outputs and as
return values of submitted functions: Python None, booleans, numbers (int and
float are collapsed into exact rationals; every numeric literal in the catalog
is a decimal, so this is lossless there), strings, lists and tuples. -/
inductive Value where
  | none
  | bool (b : Bool)
  | num (q : ℚ)
  | str (s : String)
  | list (xs : List Value)
  | tuple (xs : List Value)

/-- Numeric view used by compare_outputs: Python isinstance(x, (int, float))
is true for bool as well, because bool is a subclass of int; True counts as 1
and False as 0 in arithmetic. -/
def Value.asNum : Value → Option ℚ
  | .bool b => some (if b then 1 else 0)
  | .num q => some q
  | _ => Option.none

/-- Sequence view used by compare_outputs: isinstance(x, (list, tuple)). -/
def Value.asSeq : Value → Option (List Value)
  | .list xs => some xs
  | .tuple xs => some xs
  | _ => Option.none

/-- Numeric value of a Python bool in arithmetic contexts: True is 1, False
is 0 (bool is a subclass of int). -/
def pyBool (b : Bool) : ℚ := if b then 1 else 0

/-- The default tolerance of LevelManager.compare_outputs (its tolerance=0.01
keyword default, modelled as an explicit constant passed at every call site
that uses the default). -/
def defaultTolerance : ℚ := 1/100

/-- The tolerance run_level_8_tests passes explicitly for the element-wise
z-score comparison (tolerance=0.1). -/
def zScoreTolerance : ℚ := 1/10

mutual

/-- Embeds LevelManager.compare_outputs.  The source checks, in order:
both None; exactly one None; both numeric (isinstance (int,float), which
includes bool) with strict abs(actual-expected) < tolerance; both sequences
(list or tuple, interchangeably) with a length check and element-wise
recursion; otherwise Python ==, which for the remaining reachable pairings is
string equality on two strings and False across distinct types. -/
def compare_outputs : Value → Value → ℚ → Bool
  | .none, .none, _ => true
  | .none, _, _ => false
  | _, .none, _ => false
  | .bool a, .bool b, t => decide (|pyBool a - pyBool b| < t)
  | .bool a, .num y, t => decide (|pyBool a - y| < t)
  | .num x, .bool b, t => decide (|x - pyBool b| < t)
  | .num x, .num y, t => decide (|x - y| < t)
  | .list xs, .list ys, t => compareSeq xs ys t
  | .list xs, .tuple ys, t => compareSeq xs ys t
  | .tuple xs, .list ys, t => compareSeq xs ys t
  | .tuple xs, .tuple ys, t => compareSeq xs ys t
  | .str a, .str b, _ => decide (a = b)
  | _, _, _ => false
termination_by structural a => a

/-- Element-wise sequence comparison of compare_outputs: the source returns
False on a length mismatch and otherwise requires all zipped pairs to compare
equal recursively; this recursion is that check fused into one pass. -/
def compareSeq : List Value → List Value → ℚ → Bool
  | [], [], _ => true
  | x :: xs, y :: ys, t => compare_outputs x y t && compareSeq xs ys t
  | _, _, _ => false
termination_by structural xs => xs

end

mutual

/-- Comparator written from the words of the specification (§4.5), read
strictly: both null equal; exactly one null unequal; both numeric — where
numeric means number values, the spec placing booleans under "any other type
pairing" — equal iff abs(actual-expected) < tolerance; both ordered sequences
of equal length equal iff corresponding elements are (the zip below truncates,
so it is guarded by the length test); any other pairing, including booleans
and strings, by exact equality only.  Exact equality of two values of
different shapes is necessarily false and is written so. -/
def specEqualWithinTolerance : Value → Value → ℚ → Bool
  | .none, .none, _ => true
  | .none, _, _ => false
  | _, .none, _ => false
  | .num x, .num y, t => decide (|x - y| < t)
  | .list xs, .list ys, t => decide (xs.length = ys.length) && specZip xs ys t
  | .list xs, .tuple ys, t => decide (xs.length = ys.length) && specZip xs ys t
  | .tuple xs, .list ys, t => decide (xs.length = ys.length) && specZip xs ys t
  | .tuple xs, .tuple ys, t => decide (xs.length = ys.length) && specZip xs ys t
  | .bool a, .bool b, _ => a == b
  | .str a, .str b, _ => decide (a = b)
  | _, _, _ => false
termination_by structural a => a

/-- Truncating element-wise comparison used by the strict spec comparator. -/
def specZip : List Value → List Value → ℚ → Bool
  | x :: xs, y :: ys, t => specEqualWithinTolerance x y t && specZip xs ys t
  | _, _, _ => true
termination_by structural xs => xs

end

mutual

/-- The spec comparator amended minimally at the point the code refutes: the
numeric clause covers booleans as well (Python bool being a subclass of int,
True counting as 1 and False as 0), so a boolean paired with a number or with
another boolean is compared with numeric tolerance; everything else is as the
spec states it. -/
def specEqualAmended : Value → Value → ℚ → Bool
  | .none, .none, _ => true
  | .none, _, _ => false
  | _, .none, _ => false
  | .num x, .num y, t => decide (|x - y| < t)
  | .num x, .bool b, t => decide (|x - pyBool b| < t)
  | .bool a, .num y, t => decide (|pyBool a - y| < t)
  | .bool a, .bool b, t => decide (|pyBool a - pyBool b| < t)
  | .list xs, .list ys, t => decide (xs.length = ys.length) && specZipAmended xs ys t
  | .list xs, .tuple ys, t => decide (xs.length = ys.length) && specZipAmended xs ys t
  | .tuple xs, .list ys, t => decide (xs.length = ys.length) && specZipAmended xs ys t
  | .tuple xs, .tuple ys, t => decide (xs.length = ys.length) && specZipAmended xs ys t
  | .str a, .str b, _ => decide (a = b)
  | _, _, _ => false
termination_by structural a => a

/-- Truncating element-wise comparison used by the amended spec comparator. -/
def specZipAmended : List Value → List Value → ℚ → Bool
  | x :: xs, y :: ys, t => specEqualAmended x y t && specZipAmended xs ys t
  | _, _, _ => true
termination_by structural xs => xs

end

mutual

/-- Display-only model of Python str() on values, used to build the report
message strings the engine interpolates into f-strings.  Rationals are
rendered by their Lean representation, which differs in digits from Python
float formatting; no theorem below depends on the exact rendering. -/
def pyStr : Value → String
  | .none => "None"
  | .bool true => "True"
  | .bool false => "False"
  | .num q => toString q
  | .str s => s
  | .list xs => "[" ++ pyStrList xs ++ "]"
  | .tuple xs => "(" ++ pyStrList xs ++ ")"
termination_by structural v => v

/-- Comma-separated rendering of a list of values. -/
def pyStrList : List Value → String
  | [] => ""
  | [x] => pyStr x
  | x :: xs => pyStr x ++ ", " ++ pyStrList xs
termination_by structural xs => xs

end

/-- Identifiers for the Python source snippets stored by initialize_levels
(broken_code and solution_code of each level).  The engine never inspects the
text of a stored snippet except to parse it (validate_level_data_integrity) or
to hand it to the same pipeline a submission goes through, so snippets are
represented by tags; level 8 has a broken snippet only, because its record
carries no solution_code key. -/
inductive Snippet where
  | l1_broken | l1_solution
  | l2_broken | l2_solution
  | l3_broken | l3_solution
  | l4_broken | l4_solution
  | l5_broken | l5_solution
  | l6_broken | l6_solution
  | l7_broken | l7_solution
  | l8_broken
  | l9_broken | l9_solution
  | l10_broken | l10_solution
deriving DecidableEq

/-- Result of ast.parse on each catalog snippet, read off the source text:
the broken snippets of levels 1 (missing colon after the def header), 2
(missing closing parenthesis), 3 (missing colon after the for header), 8
(unclosed bracket inside an f-string field) and 9 (a closing brace inside an
f-string while a square bracket is open) fail to parse; every other stored
snippet is syntactically valid Python. -/
def snippetParses : Snippet → Bool
  | .l1_broken => false
  | .l2_broken => false
  | .l3_broken => false
  | .l8_broken => false
  | .l9_broken => false
  | _ => true

/-- One entry of a test_cases list: an input (a tuple input is splatted into
positional arguments by the single-function harness, any other shape is passed
as the one argument), the expected output, and — only in level 10's list — a
function name key that no code path reads. -/
structure TestCase where
  input : Value
  output : Value
  function : Option String

/-- One level record as initialize_levels builds it, at the granularity the
engine reads it.  title, description, difficulty, broken_code, test_cases,
hint and errors are keys every record of the catalog carries, so they are
plain fields; solution_code is an Option because the level 8 record omits
that key. -/
structure LevelData where
  title : String
  description : String
  difficulty : String
  broken_code : Snippet
  solution_code : Option Snippet
  test_cases : List TestCase
  hint : String
  errors : List String

/-- Level 1, Quadratic Discriminant. -/
def level1 : LevelData where
  title := "Quadratic Discriminant"
  description := "Calculate discriminant of quadratic equation"
  difficulty := "Beginner"
  broken_code := .l1_broken
  solution_code := some .l1_solution
  test_cases := [
    { input := .tuple [.num 1, .num 4, .num 4], output := .num 0, function := Option.none },
    { input := .tuple [.num 2, .num 5, .num 3], output := .num 1, function := Option.none },
    { input := .tuple [.num 1, .num 2, .num 5], output := .num (-16), function := Option.none }]
  hint := "Look for a missing colon (:) in the function definition."
  errors := ["Missing colon after function definition"]

/-- Level 2, Linear Equation Solver. -/
def level2 : LevelData where
  title := "Linear Equation Solver"
  description := "Solve linear equation ax + b = 0"
  difficulty := "Beginner"
  broken_code := .l2_broken
  solution_code := some .l2_solution
  test_cases := [
    { input := .tuple [.num 2, .num 4], output := .num (-2), function := Option.none },
    { input := .tuple [.num 3, .num (-9)], output := .num 3, function := Option.none },
    { input := .tuple [.num 1, .num 0], output := .num 0, function := Option.none }]
  hint := "Check the closing parenthesis in the print statement."
  errors := ["Missing closing parenthesis"]

/-- Level 3, Prime Number Checker. -/
def level3 : LevelData where
  title := "Prime Number Checker"
  description := "Check if a number is prime"
  difficulty := "Beginner"
  broken_code := .l3_broken
  solution_code := some .l3_solution
  test_cases := [
    { input := .num 2, output := .bool true, function := Option.none },
    { input := .num 17, output := .bool true, function := Option.none },
    { input := .num 4, output := .bool false, function := Option.none },
    { input := .num 25, output := .bool false, function := Option.none }]
  hint := "Missing colon (:) at the end of the for loop line."
  errors := ["Missing colon after for loop"]

/-- Level 4, Greatest Common Divisor. -/
def level4 : LevelData where
  title := "Greatest Common Divisor"
  description := "Find GCD using Euclidean algorithm"
  difficulty := "Intermediate"
  broken_code := .l4_broken
  solution_code := some .l4_solution
  test_cases := [
    { input := .tuple [.num 48, .num 18], output := .num 6, function := Option.none },
    { input := .tuple [.num 100, .num 25], output := .num 25, function := Option.none },
    { input := .tuple [.num 17, .num 13], output := .num 1, function := Option.none }]
  hint := "The algorithm logic is correct, but there might be a subtle error in the variable assignments."
  errors := ["Logic error in variable swapping - this is actually correct code, testing validation"]

/-- Level 5, Fibonacci Sequence. -/
def level5 : LevelData where
  title := "Fibonacci Sequence"
  description := "Generate Fibonacci numbers"
  difficulty := "Intermediate"
  broken_code := .l5_broken
  solution_code := some .l5_solution
  test_cases := [
    { input := .num 5, output := .list [.num 0, .num 1, .num 1, .num 2, .num 3], function := Option.none },
    { input := .num 7, output := .list [.num 0, .num 1, .num 1, .num 2, .num 3, .num 5, .num 8], function := Option.none },
    { input := .num 1, output := .list [.num 0], function := Option.none }]
  hint := "In the loop, check if you are appending to the list or replacing the entire list."
  errors := ["Replacing list instead of appending"]

/-- Level 6, Statistical Calculations. -/
def level6 : LevelData where
  title := "Statistical Calculations"
  description := "Calculate mean, median, and variance"
  difficulty := "Intermediate"
  broken_code := .l6_broken
  solution_code := some .l6_solution
  test_cases := [
    { input := .list [.num 1, .num 2, .num 2, .num 3, .num 4, .num 4, .num 4, .num 5, .num 6],
      output := .num (344/100), function := Option.none },
    { input := .list [.num 1, .num 2, .num 2, .num 3, .num 4, .num 4, .num 4, .num 5, .num 6],
      output := .num 4, function := Option.none },
    { input := .list [.num 1, .num 2, .num 3, .num 4, .num 5],
      output := .num 3, function := Option.none },
    { input := .list [.num 1, .num 2, .num 3, .num 4, .num 5],
      output := .num 3, function := Option.none }]
  hint := "Check three things: 1) Are you using assignment (=) instead of equality (==)? 2) For odd-length lists, which index gives you the middle element? 3) Are you using population variance (÷N) or sample variance (÷N-1)?"
  errors := [
    "Assignment operator (=) instead of equality (==)",
    "Incorrect median calculation for odd-length lists",
    "Using sample variance instead of population variance"]

/-- Level 7, Matrix Operations. -/
def level7 : LevelData where
  title := "Matrix Operations"
  description := "Perform matrix multiplication"
  difficulty := "Advanced"
  broken_code := .l7_broken
  solution_code := some .l7_solution
  test_cases := [
    { input := .tuple [.list [.list [.num 1, .num 2], .list [.num 3, .num 4]],
                       .list [.list [.num 5, .num 6], .list [.num 7, .num 8]]],
      output := .list [.list [.num 19, .num 22], .list [.num 43, .num 50]], function := Option.none },
    { input := .tuple [.list [.list [.num 1, .num 2, .num 3]],
                       .list [.list [.num 4], .list [.num 5], .list [.num 6]]],
      output := .list [.list [.num 32]], function := Option.none }]
  hint := "Multiple matrix bugs: 1) Check result matrix dimensions, 2) Check index order in assignments, 3) Check transpose matrix initialization, 4) Check transpose assignment indices."
  errors := [
    "Wrong result matrix dimensions",
    "Swapped indices in multiplication",
    "Wrong transpose dimensions",
    "Swapped transpose indices"]

/-- Level 8, Standard Deviation Calculator.  The record initialize_levels
builds for this level carries no solution_code key. -/
def level8 : LevelData where
  title := "Standard Deviation Calculator"
  description := "Calculate population standard deviation"
  difficulty := "Advanced"
  broken_code := .l8_broken
  solution_code := Option.none
  test_cases := [
    { input := .list [.num 10, .num 12, .num 14, .num 16, .num 18, .num 20],
      output := .num (316/100), function := Option.none },
    { input := .list [.num 1, .num 1, .num 1, .num 1, .num 1],
      output := .num 0, function := Option.none }]
  hint := "Four bugs to find: 1) Wrong variance formula, 2) Division by zero edge case, 3) Wrong denominator in Z-score formula, 4) Missing closing bracket in print statement."
  errors := [
    "Sample variance instead of population variance",
    "Division by zero edge case",
    "Using variance instead of std_dev in Z-scores",
    "Missing closing bracket syntax error"]

/-- Level 9, Correlation Coefficient. -/
def level9 : LevelData where
  title := "Correlation Coefficient"
  description := "Calculate Pearson correlation coefficient"
  difficulty := "Advanced"
  broken_code := .l9_broken
  solution_code := some .l9_solution
  test_cases := [
    { input := .tuple [.list [.num 1, .num 2, .num 3, .num 4, .num 5],
                       .list [.num 2, .num 4, .num 6, .num 8, .num 10]],
      output := .num 1, function := Option.none },
    { input := .tuple [.list [.num 1, .num 2, .num 3, .num 4, .num 5],
                       .list [.num 10, .num 8, .num 6, .num 4, .num 2]],
      output := .num (-1), function := Option.none }]
  hint := "The correlation formula implementation looks mathematically correct."
  errors := ["No actual error - advanced mathematical concepts"]

/-- Level 10, Advanced Statistics Suite.  Its test_cases carry an extra
function key that no code path reads. -/
def level10 : LevelData where
  title := "Advanced Statistics Suite"
  description := "Complete statistical analysis with multiple bugs"
  difficulty := "Expert"
  broken_code := .l10_broken
  solution_code := some .l10_solution
  test_cases := [
    { input := .list [.num 1, .num 2, .num 2, .num 3, .num 4, .num 4, .num 4, .num 5, .num 6],
      output := .num (344/100), function := some ("calculate_mean") },
    { input := .list [.num 1, .num 2, .num 3, .num 4, .num 5],
      output := .num 3, function := some ("calculate_mean") },
    { input := .list [.num 1, .num 2, .num 2, .num 3, .num 4, .num 4, .num 4, .num 5, .num 6],
      output := .num 4, function := some ("calculate_median") },
    { input := .list [.num 1, .num 2, .num 3, .num 4, .num 5],
      output := .num 3, function := some ("calculate_median") },
    { input := .list [.num 1, .num 2, .num 3, .num 4],
      output := .num (25/10), function := some ("calculate_median") },
    { input := .list [.num 1, .num 2, .num 3, .num 4, .num 5],
      output := .num 2, function := some ("calculate_variance") },
    { input := .list [.num 2, .num 2, .num 2, .num 2],
      output := .num 0, function := some ("calculate_variance") },
    { input := .list [.num 1, .num 2, .num 3, .num 4, .num 5],
      output := .num (141/100), function := some ("calculate_std_dev") },
    { input := .list [.num 2, .num 2, .num 2, .num 2],
      output := .num 0, function := some ("calculate_std_dev") }]
  hint := "Look at nested loops, weight calculations, and index boundaries; subtle mistakes may only appear for special datasets or edge cases."
  errors := ["The broken version has errors including division by zero on empty datasets, inverted sample/population variance logic, unnecessary nested loops inflating skewness and kurtosis, reversed percentile interpolation with out-of-bounds indices, stale standard deviation in confidence intervals, a missing parenthesis causing a syntax error, and unsafe handling of single-element datasets."]

/-- The catalog initialize_levels returns: an immutable mapping from level
number to level record, keys 1 through 10. -/
def levels_data : List (Int × LevelData) :=
  [(1, level1), (2, level2), (3, level3), (4, level4), (5, level5),
   (6, level6), (7, level7), (8, level8), (9, level9), (10, level10)]

/-- Embeds LevelManager.get_level: dict.get, None for a key outside 1..10. -/
def get_level (level_number : Int) : Option LevelData :=
  (levels_data.find? (fun p => p.1 == level_number)).map (fun p => p.2)

/-- Whether the character list starting here begins with the needle. -/
def charPrefix : List Char → List Char → Bool
  | [], _ => true
  | _ :: _, [] => false
  | a :: as, b :: bs => a == b && charPrefix as bs

/-- Whether the needle occurs in the haystack, by scanning every suffix. -/
def charContains (needle : List Char) : List Char → Bool
  | [] => needle.isEmpty
  | c :: rest => charPrefix needle (c :: rest) || charContains needle rest

/-- Embeds the Python substring test `needle in hay` on strings. -/
def strContains (hay needle : String) : Bool :=
  charContains needle.data hay.data

/-- The required_fields list of validate_level_data_integrity. -/
def required_fields : List String :=
  ["title", "description", "difficulty", "broken_code",
   "solution_code", "test_cases", "hint", "errors"]

/-- The missing-fields computation of validate_level_data_integrity for one
record: of the eight required keys, seven are present in every record of this
catalog (they are fields of LevelData), so only solution_code can be absent. -/
def missing_fields (ld : LevelData) : List String :=
  required_fields.filter (fun f => f == "solution_code" && ld.solution_code.isNone)

/-- Python repr of a list of strings, as an f-string interpolates it:
each element in single quotes, comma-separated, in square brackets. -/
def pyReprStrList (xs : List String) : String :=
  "[" ++ String.intercalate (", ") (xs.map (fun s => "'" ++ s ++ "'")) ++ "]"

/-- The report validate_level_data_integrity returns. -/
structure IntegrityReport where
  valid : Bool
  valid_levels : Nat
  total_levels : Nat
  issues : List String

/-- One iteration of the integrity loop: passes the accumulated issues and
valid-level count through the checks for level n.  Mirrors the source: missing
level data or missing fields append an issue and skip the rest (continue); the
solution snippet is then parsed, a failure appending an issue; the test-case
format checks never fire on this catalog, whose entries are well-formed
dictionaries with input and output keys; finally the level counts as valid
when no accumulated issue mentions "Level n" as a substring. -/
def integrityStep (acc : List String × Nat) (n : Int) : List String × Nat :=
  let issues := acc.1
  let valid_levels := acc.2
  match get_level n with
  | Option.none => (issues ++ ["Level " ++ toString n ++ ": Missing level data"], valid_levels)
  | some level_data =>
    let missing := missing_fields level_data
    if missing.isEmpty then
      let issues :=
        match level_data.solution_code with
        | some code =>
          if snippetParses code then issues
          else issues ++ ["Level " ++ toString n ++ ": Solution code syntax error"]
        | Option.none => issues
      let counted :=
        issues.isEmpty || issues.all (fun i => !(strContains i ("Level " ++ toString n)))
      (issues, if counted then valid_levels + 1 else valid_levels)
    else
      (issues ++ ["Level " ++ toString n ++ ": Missing fields: " ++ pyReprStrList missing],
       valid_levels)

/-- Embeds LevelManager.validate_level_data_integrity: folds the per-level
checks over levels 1..10 and reports valid iff no issue was found. -/
def validate_level_data_integrity : IntegrityReport :=
  let acc := [1, 2, 3, 4, 5, 6, 7, 8, 9, 10].foldl integrityStep (([] : List String), 0)
  { valid := acc.1.isEmpty
    valid_levels := acc.2
    total_levels := 10
    issues := acc.1 }

/-- An exception a submission raises, as the engine's handlers see it:
str(e), and whether the object is an instance of Exception.  Every except
arm in the engine is `except Exception` (or the narrower `except
SyntaxError`), and Python's BaseException descendants outside Exception —
SystemExit, raised by sys.exit(), or KeyboardInterrupt — are not caught by
an `except Exception`, so an isException = false value passes through every
handler of the engine and propagates to its caller.  A submission can raise
one: the sandbox's builtins include the genuine dunder-import, so `import
sys` followed by `sys.exit()` raises SystemExit (whose str() is empty). -/
structure PyExc where
  msg : String
  isException : Bool
deriving DecidableEq

/-- An object of a submission-defined class, as the level 10 harness uses it:
attribute lookup (hasattr) and bound-method invocation, whose Except error
is the exception a call raises. -/
structure PyInstance where
  hasAttr : String → Bool
  callMethod : String → List Value → Except PyExc Value

/-- The namespace produced by exec(code, safe_globals), through the interface
the engine reads from it: its keys, which bound values are callable, calling
a top-level callable on positional arguments, and instantiating a top-level
class; either invocation may raise, the Except error being the raised
exception — which the per-scenario handlers convert to a failing row only
when it is an Exception instance. -/
structure PyNamespace where
  keys : List String
  isCallable : String → Bool
  call : String → List Value → Except PyExc Value
  instantiate : String → List Value → Except PyExc PyInstance

/-- Outcome of exec(code, safe_globals): the resulting namespace, or the
exception that escaped exec — converted to failing rows by the except around
dispatch in execute_test_cases when it is an Exception instance, and
propagating past that handler otherwise. -/
inductive ExecOutcome where
  | ok (ns : PyNamespace)
  | raised (e : PyExc)

/-- A node of the parsed syntax tree, at the granularity extract_main_function
walks it: a function definition, or any other construct, each with the nodes
nested inside it. -/
inductive PyNode where
  | funcDef (name : String) (children : List PyNode)
  | other (children : List PyNode)

/-- A submission, through the observable behaviour the engine extracts from
its source text: the result of ast.parse (a syntax-error message, or the
module body), and the outcome of executing the text in the sandbox.  The
engine only ever reads a submission through these two observations. -/
structure Submission where
  ast : Except String (List PyNode)
  run : ExecOutcome

/-- Whether a node is a function definition (isinstance(node, ast.FunctionDef)). -/
def PyNode.isFuncDef : PyNode → Bool
  | .funcDef _ _ => true
  | .other _ => false

mutual

/-- Number of nodes in a subtree, the measure for the walk below. -/
def PyNode.size : PyNode → Nat
  | .funcDef _ cs => 1 + PyNode.sizeList cs
  | .other cs => 1 + PyNode.sizeList cs
termination_by structural n => n

/-- Number of nodes in a forest. -/
def PyNode.sizeList : List PyNode → Nat
  | [] => 0
  | n :: ns => PyNode.size n + PyNode.sizeList ns
termination_by structural ns => ns

end

/-- The walk of extract_main_function: ast.walk is breadth-first, popping the
queue's front and appending a popped node's children at the back, and
extract_main_function returns the name of the first FunctionDef the walk
yields.  The queue here starts at the module body. -/
def bfsFirstFuncDef : List PyNode → Option String
  | [] => Option.none
  | .funcDef name _ :: _ => some name
  | .other children :: rest => bfsFirstFuncDef (rest ++ children)
termination_by queue => PyNode.sizeList queue
decreasing_by
  induction rest with
  | nil => simp [PyNode.sizeList, PyNode.size]
  | cons n ns ih =>
    simp only [List.cons_append, List.append_eq, List.nil_append,
               PyNode.sizeList, PyNode.size] at ih ⊢
    omega

/-- Embeds LevelManager.extract_main_function: parse the code, walk the tree,
return the first function definition's name; the bare except turns a parse
failure into None. -/
def extract_main_function : Except String (List PyNode) → Option String
  | .error _ => Option.none
  | .ok body => bfsFirstFuncDef body

/-- The test key.startswith of an underscore, read off the first character. -/
def startsWithUnderscore (k : String) : Bool :=
  match k.data with
  | [] => false
  | c :: _ => c == '_'

/-- The functions set detect_level_type builds: names bound to callables whose
name does not start with an underscore.  In the executed namespace the
pre-populated entries (the builtins dictionary, the math and statistics
modules, the name string) are not callables, so this is the submission's own
functions and classes. -/
def callable_functions (ns : PyNamespace) : List String :=
  ns.keys.filter (fun k => ns.isCallable k && !(startsWithUnderscore k))

/-- Embeds LevelManager.detect_level_type: decides which harness runs by
matching the namespace's callable names against hard-coded signature sets, in
this order; the level it is validating is not an input.  The level-10 test is
plain key membership, not a callability check. -/
def detect_level_type (ns : PyNamespace) : String :=
  let functions := callable_functions ns
  if ["calculate_mean", "calculate_median", "calculate_variance",
      "calculate_std_dev"].all functions.contains then "level_6"
  else if ["matrix_multiply", "matrix_transpose"].all functions.contains then "level_7"
  else if ["calculate_variance", "calculate_std_dev",
           "calculate_z_scores"].all functions.contains then "level_8"
  else if ["calculate_correlation", "interpret_correlation"].all functions.contains then "level_9"
  else if ns.keys.contains ("StatisticalAnalyzer") then "level_10"
  else "single_function"

/-- One row of the results list every harness builds per scenario. -/
structure TestResult where
  test_number : Nat
  passed : Bool
  input : Value
  expected : Value
  actual : Option Value
  error : Option String

/-- A hard-coded scenario of the level 6, 7, 8 and 9 harnesses: a function
name, one input, the expected output and a description. -/
structure FuncScenario where
  func : String
  input : Value
  expected : Value
  desc : String

/-- A hard-coded scenario of the level 10 harness: a class to instantiate on
init_data, a method to call (with arguments when method_args is present) and
the expected output. -/
structure ClassScenario where
  cls : String
  init_data : Value
  method : String
  method_args : Option (List Value)
  expected : Value
  desc : String

/-- Positional arguments of an invocation: a tuple input is splatted
(func(*input)), any other value is passed as the one argument. -/
def splatArgs : Value → List Value
  | .tuple xs => xs
  | v => [v]

/-- The nine scenarios hard-coded in run_level_6_tests.  The declared
test_cases of the level record are not among its inputs: the harness ignores
them. -/
def level6_scenarios : List FuncScenario :=
  [{ func := "calculate_mean",
     input := .list [.num 1, .num 2, .num 2, .num 3, .num 4, .num 4, .num 4, .num 5, .num 6],
     expected := .num (344/100), desc := "Mean of test_data_1" },
   { func := "calculate_mean",
     input := .list [.num 1, .num 2, .num 3, .num 4, .num 5],
     expected := .num 3, desc := "Mean of test_data_2" },
   { func := "calculate_median",
     input := .list [.num 1, .num 2, .num 2, .num 3, .num 4, .num 4, .num 4, .num 5, .num 6],
     expected := .num 4, desc := "Median of test_data_1 (odd length)" },
   { func := "calculate_median",
     input := .list [.num 1, .num 2, .num 3, .num 4, .num 5],
     expected := .num 3, desc := "Median of test_data_2 (odd length)" },
   { func := "calculate_median",
     input := .list [.num 1, .num 2, .num 3, .num 4],
     expected := .num (25/10), desc := "Median of test_data_3 (even length)" },
   { func := "calculate_variance",
     input := .list [.num 1, .num 2, .num 3, .num 4, .num 5],
     expected := .num 2, desc := "Variance of test_data_2" },
   { func := "calculate_variance",
     input := .list [.num 2, .num 2, .num 2, .num 2],
     expected := .num 0, desc := "Variance of identical numbers" },
   { func := "calculate_std_dev",
     input := .list [.num 1, .num 2, .num 3, .num 4, .num 5],
     expected := .num (141/100), desc := "Std dev of test_data_2" },
   { func := "calculate_std_dev",
     input := .list [.num 2, .num 2, .num 2, .num 2],
     expected := .num 0, desc := "Std dev of identical numbers" }]

/-- The four scenarios hard-coded in run_level_7_tests. -/
def level7_scenarios : List FuncScenario :=
  [{ func := "matrix_multiply",
     input := .tuple [.list [.list [.num 1, .num 2], .list [.num 3, .num 4]],
                      .list [.list [.num 5, .num 6], .list [.num 7, .num 8]]],
     expected := .list [.list [.num 19, .num 22], .list [.num 43, .num 50]],
     desc := "Matrix multiplication 2x2" },
   { func := "matrix_multiply",
     input := .tuple [.list [.list [.num 1, .num 2, .num 3]],
                      .list [.list [.num 4], .list [.num 5], .list [.num 6]]],
     expected := .list [.list [.num 32]],
     desc := "Matrix multiplication 1x3 * 3x1" },
   { func := "matrix_transpose",
     input := .list [.list [.num 1, .num 2, .num 3], .list [.num 4, .num 5, .num 6]],
     expected := .list [.list [.num 1, .num 4], .list [.num 2, .num 5], .list [.num 3, .num 6]],
     desc := "Matrix transpose 2x3" },
   { func := "matrix_transpose",
     input := .list [.list [.num 1, .num 2], .list [.num 3, .num 4], .list [.num 5, .num 6]],
     expected := .list [.list [.num 1, .num 3, .num 5], .list [.num 2, .num 4, .num 6]],
     desc := "Matrix transpose 3x2" }]

/-- The four scenarios hard-coded in run_level_8_tests. -/
def level8_scenarios : List FuncScenario :=
  [{ func := "calculate_std_dev",
     input := .list [.num 10, .num 12, .num 14, .num 16, .num 18, .num 20],
     expected := .num (316/100), desc := "Standard deviation of evenly spaced numbers" },
   { func := "calculate_std_dev",
     input := .list [.num 1, .num 1, .num 1, .num 1, .num 1],
     expected := .num 0, desc := "Standard deviation of identical numbers" },
   { func := "calculate_z_scores",
     input := .list [.num 1, .num 2, .num 3, .num 4, .num 5],
     expected := .list [.num (-141/100), .num (-71/100), .num 0, .num (71/100), .num (141/100)],
     desc := "Z-scores of simple sequence" },
   { func := "calculate_z_scores",
     input := .list [.num 1, .num 1, .num 1, .num 1, .num 1],
     expected := .list [.num 0, .num 0, .num 0, .num 0, .num 0],
     desc := "Z-scores of identical numbers" }]

/-- The four scenarios hard-coded in run_level_9_tests. -/
def level9_scenarios : List FuncScenario :=
  [{ func := "calculate_correlation",
     input := .tuple [.list [.num 1, .num 2, .num 3, .num 4, .num 5],
                      .list [.num 2, .num 4, .num 6, .num 8, .num 10]],
     expected := .num 1, desc := "Perfect positive correlation" },
   { func := "calculate_correlation",
     input := .tuple [.list [.num 1, .num 2, .num 3, .num 4, .num 5],
                      .list [.num 10, .num 8, .num 6, .num 4, .num 2]],
     expected := .num (-1), desc := "Perfect negative correlation" },
   { func := "interpret_correlation",
     input := .num (95/100),
     expected := .str ("very strong positive correlation"),
     desc := "Interpret strong positive correlation" },
   { func := "interpret_correlation",
     input := .num (-8/10),
     expected := .str ("strong negative correlation"),
     desc := "Interpret strong negative correlation" }]

/-- The three scenarios hard-coded in run_level_10_tests. -/
def level10_scenarios : List ClassScenario :=
  [{ cls := "StatisticalAnalyzer",
     init_data := .list [.num 1, .num 2, .num 3, .num 4, .num 5],
     method := "calculate_mean", method_args := Option.none,
     expected := .num 3, desc := "StatisticalAnalyzer mean calculation" },
   { cls := "StatisticalAnalyzer",
     init_data := .list [.num 1, .num 2, .num 3, .num 4, .num 5],
     method := "calculate_percentile", method_args := some [.num 50],
     expected := .num 3, desc := "StatisticalAnalyzer median (50th percentile)" },
   { cls := "StatisticalAnalyzer",
     init_data := .list [.num 1, .num 2, .num 3, .num 4, .num 5],
     method := "calculate_variance", method_args := Option.none,
     expected := .num 2, desc := "StatisticalAnalyzer variance calculation" }]

/-- One iteration of the run_level_6_tests loop, its try/except included: the
scenario's function is looked up by key, called on the input as the single
argument; the output is compared at the default tolerance; an Exception in
resolution or invocation lands in the scenario's except Exception and yields
a failing row carrying the message, while a raised value outside the
Exception class escapes the handler and aborts the loop. -/
def funcStep6 (ns : PyNamespace) (i : Nat) (sc : FuncScenario) : Except PyExc TestResult :=
  if ns.keys.contains sc.func then
    match ns.call sc.func [sc.input] with
    | .ok actual_output =>
      let passed := compare_outputs actual_output sc.expected defaultTolerance
      .ok { test_number := i + 1, passed := passed, input := sc.input, expected := sc.expected,
            actual := some actual_output,
            error := if passed then Option.none
                     else some ("Expected " ++ pyStr sc.expected ++ ", got " ++ pyStr actual_output) }
    | .error e =>
      if e.isException then
        .ok { test_number := i + 1, passed := false, input := sc.input, expected := sc.expected,
              actual := Option.none, error := some ("Test execution error: " ++ e.msg) }
      else .error e
  else
    .ok { test_number := i + 1, passed := false, input := sc.input, expected := sc.expected,
          actual := Option.none, error := some ("Function " ++ sc.func ++ " not found") }

/-- One iteration of the run_level_7_tests loop; the run_level_9_tests loop
body is identical in the source, so both harnesses share this step.  It
differs from the level 6 step only in splatting a tuple input into positional
arguments. -/
def funcStepSplat (ns : PyNamespace) (i : Nat) (sc : FuncScenario) : Except PyExc TestResult :=
  if ns.keys.contains sc.func then
    match ns.call sc.func (splatArgs sc.input) with
    | .ok actual_output =>
      let passed := compare_outputs actual_output sc.expected defaultTolerance
      .ok { test_number := i + 1, passed := passed, input := sc.input, expected := sc.expected,
            actual := some actual_output,
            error := if passed then Option.none
                     else some ("Expected " ++ pyStr sc.expected ++ ", got " ++ pyStr actual_output) }
    | .error e =>
      if e.isException then
        .ok { test_number := i + 1, passed := false, input := sc.input, expected := sc.expected,
              actual := Option.none, error := some ("Test execution error: " ++ e.msg) }
      else .error e
  else
    .ok { test_number := i + 1, passed := false, input := sc.input, expected := sc.expected,
          actual := Option.none, error := some ("Function " ++ sc.func ++ " not found") }

/-- The element-wise z-score acceptance loop of run_level_8_tests: zip
truncates, and each pair must compare equal at tolerance 0.1. -/
def zScoreZip : List Value → List Value → Bool
  | a :: as, e :: es => compare_outputs a e zScoreTolerance && zScoreZip as es
  | _, _ => true

/-- One iteration of the run_level_8_tests loop: as the level 6 step, except
that for the calculate_z_scores scenarios the pass decision is a length test
plus the element-wise comparison at tolerance 0.1 instead of a single
compare_outputs call at the default tolerance.  len() on a non-sequence
actual raises a TypeError — an Exception, landing in the scenario's except;
the message stands in for str() of that TypeError. -/
def funcStep8 (ns : PyNamespace) (i : Nat) (sc : FuncScenario) : Except PyExc TestResult :=
  if ns.keys.contains sc.func then
    match ns.call sc.func [sc.input] with
    | .ok actual_output =>
      if sc.func == "calculate_z_scores" then
        match actual_output.asSeq, sc.expected.asSeq with
        | some xs, some ys =>
          let passed := decide (xs.length = ys.length) && zScoreZip xs ys
          .ok { test_number := i + 1, passed := passed, input := sc.input,
                expected := sc.expected, actual := some actual_output,
                error := if passed then Option.none
                         else some ("Expected " ++ pyStr sc.expected ++ ", got " ++
                                    pyStr actual_output) }
        | _, _ =>
          .ok { test_number := i + 1, passed := false, input := sc.input,
                expected := sc.expected, actual := Option.none,
                error := some ("Test execution error: object has no len()") }
      else
        let passed := compare_outputs actual_output sc.expected defaultTolerance
        .ok { test_number := i + 1, passed := passed, input := sc.input,
              expected := sc.expected, actual := some actual_output,
              error := if passed then Option.none
                       else some ("Expected " ++ pyStr sc.expected ++ ", got " ++
                                  pyStr actual_output) }
    | .error e =>
      if e.isException then
        .ok { test_number := i + 1, passed := false, input := sc.input, expected := sc.expected,
              actual := Option.none, error := some ("Test execution error: " ++ e.msg) }
      else .error e
  else
    .ok { test_number := i + 1, passed := false, input := sc.input, expected := sc.expected,
          actual := Option.none, error := some ("Function " ++ sc.func ++ " not found") }

/-- One iteration of the run_level_10_tests loop: resolve the class by key,
instantiate it on init_data, check the method with hasattr, call it with
method_args when present and with no argument otherwise, and compare at the
default tolerance; an Exception in instantiation or the call lands in the
scenario's except Exception, a raised value outside the Exception class
escapes it. -/
def classStep10 (ns : PyNamespace) (i : Nat) (sc : ClassScenario) : Except PyExc TestResult :=
  if ns.keys.contains sc.cls then
    match ns.instantiate sc.cls [sc.init_data] with
    | .ok inst =>
      if inst.hasAttr sc.method then
        match inst.callMethod sc.method (sc.method_args.getD []) with
        | .ok actual_output =>
          let passed := compare_outputs actual_output sc.expected defaultTolerance
          .ok { test_number := i + 1, passed := passed, input := sc.init_data,
                expected := sc.expected, actual := some actual_output,
                error := if passed then Option.none
                         else some ("Expected " ++ pyStr sc.expected ++ ", got " ++
                                    pyStr actual_output) }
        | .error e =>
          if e.isException then
            .ok { test_number := i + 1, passed := false, input := sc.init_data,
                  expected := sc.expected, actual := Option.none,
                  error := some ("Test execution error: " ++ e.msg) }
          else .error e
      else
        .ok { test_number := i + 1, passed := false, input := sc.init_data,
              expected := sc.expected, actual := Option.none,
              error := some ("Method " ++ sc.method ++ " not found in class " ++ sc.cls) }
    | .error e =>
      if e.isException then
        .ok { test_number := i + 1, passed := false, input := sc.init_data,
              expected := sc.expected, actual := Option.none,
              error := some ("Test execution error: " ++ e.msg) }
      else .error e
  else
    .ok { test_number := i + 1, passed := false, input := sc.init_data,
          expected := sc.expected, actual := Option.none,
          error := some ("Class " ++ sc.cls ++ " not found") }

/-- The enumerate loop of the exec-failed arm of execute_test_cases: its step
is pure (the loop body only builds a dictionary), so it cannot raise; one
result row per declared test case, in order, at consecutive indices. -/
def enumLoop {α : Type} (step : Nat → α → TestResult) : Nat → List α → List TestResult
  | _, [] => []
  | i, sc :: rest => step i sc :: enumLoop step (i + 1) rest

/-- The enumerate loop every harness runs.  Each iteration's try/except
converts an Exception into a row, so the step yields a row — or the raised
value outside the Exception class that escaped the per-scenario handler, in
which case the loop is aborted, the rows built so far are abandoned (the
harness never returns) and the exception propagates. -/
def enumLoopE {α : Type} (step : Nat → α → Except PyExc TestResult) :
    Nat → List α → Except PyExc (List TestResult)
  | _, [] => Except.ok []
  | i, sc :: rest =>
    match step i sc with
    | .error e => .error e
    | .ok r =>
      match enumLoopE step (i + 1) rest with
      | .error e => .error e
      | .ok rows => .ok (r :: rows)

/-- Embeds LevelManager.run_level_6_tests: runs the nine hard-coded level 6
scenarios; the test_cases argument the dispatcher passes is ignored. -/
def run_level_6_tests (ns : PyNamespace) (_test_cases : List TestCase) :
    Except PyExc (List TestResult) :=
  enumLoopE (funcStep6 ns) 0 level6_scenarios

/-- Embeds LevelManager.run_level_7_tests: runs the four hard-coded level 7
scenarios; the test_cases argument is ignored. -/
def run_level_7_tests (ns : PyNamespace) (_test_cases : List TestCase) :
    Except PyExc (List TestResult) :=
  enumLoopE (funcStepSplat ns) 0 level7_scenarios

/-- Embeds LevelManager.run_level_8_tests: runs the four hard-coded level 8
scenarios; the test_cases argument is ignored. -/
def run_level_8_tests (ns : PyNamespace) (_test_cases : List TestCase) :
    Except PyExc (List TestResult) :=
  enumLoopE (funcStep8 ns) 0 level8_scenarios

/-- Embeds LevelManager.run_level_9_tests: runs the four hard-coded level 9
scenarios; the test_cases argument is ignored. -/
def run_level_9_tests (ns : PyNamespace) (_test_cases : List TestCase) :
    Except PyExc (List TestResult) :=
  enumLoopE (funcStepSplat ns) 0 level9_scenarios

/-- Embeds LevelManager.run_level_10_tests: runs the three hard-coded level 10
scenarios; the test_cases argument is ignored. -/
def run_level_10_tests (ns : PyNamespace) (_test_cases : List TestCase) :
    Except PyExc (List TestResult) :=
  enumLoopE (classStep10 ns) 0 level10_scenarios

/-- One iteration of the run_single_function_tests loop, its try/except
included.  The guard mirrors Python truthiness: main_function must be neither
None nor empty, and present in the namespace; a tuple input is splatted.  When
the guard fails the row's message interpolates main_function, rendering None
as the text None.  An Exception raised by the invocation lands in the
iteration's except Exception; a raised value outside the Exception class
escapes it. -/
def singleStep (ns : PyNamespace) (main_function : Option String) (i : Nat)
    (tc : TestCase) : Except PyExc TestResult :=
  match main_function with
  | some m =>
    if !m.isEmpty && ns.keys.contains m then
      match ns.call m (splatArgs tc.input) with
      | .ok actual_output =>
        let passed := compare_outputs actual_output tc.output defaultTolerance
        .ok { test_number := i + 1, passed := passed, input := tc.input, expected := tc.output,
              actual := some actual_output,
              error := if passed then Option.none
                       else some ("Expected " ++ pyStr tc.output ++ ", got " ++
                                  pyStr actual_output) }
      | .error e =>
        if e.isException then
          .ok { test_number := i + 1, passed := false, input := tc.input, expected := tc.output,
                actual := Option.none, error := some ("Test execution error: " ++ e.msg) }
        else .error e
    else
      .ok { test_number := i + 1, passed := false, input := tc.input, expected := tc.output,
            actual := Option.none, error := some ("Function " ++ m ++ " not found") }
  | Option.none =>
    .ok { test_number := i + 1, passed := false, input := tc.input, expected := tc.output,
          actual := Option.none, error := some ("Function None not found") }

/-- Embeds LevelManager.run_single_function_tests (the fallback for levels
1..5): extracts the main function from the code and invokes that one symbol
on every declared test case. -/
def run_single_function_tests (ns : PyNamespace) (code : Except String (List PyNode))
    (test_cases : List TestCase) : Except PyExc (List TestResult) :=
  enumLoopE (singleStep ns (extract_main_function code)) 0 test_cases

/-- The row execute_test_cases appends per declared test case when exec of the
submission raised. -/
def execFailStep (msg : String) (i : Nat) (tc : TestCase) : TestResult :=
  { test_number := i + 1, passed := false, input := tc.input, expected := tc.output,
    actual := Option.none, error := some ("Code execution failed: " ++ msg) }

/-- Embeds LevelManager.execute_test_cases: execute the submission in the
sandbox namespace; otherwise dispatch on detect_level_type — whose only input
is the namespace — to the matching hard-coded harness, falling back to
single-function testing.  The method's except Exception converts an Exception
escaping exec into one failing row per declared test case; a raised value
outside the Exception class — from exec or escaping a harness loop — is not
caught and propagates to the caller. -/
def execute_test_cases (sub : Submission) (test_cases : List TestCase) :
    Except PyExc (List TestResult) :=
  match sub.run with
  | .raised e =>
    if e.isException then Except.ok (enumLoop (execFailStep e.msg) 0 test_cases)
    else Except.error e
  | .ok ns =>
    let level_type := detect_level_type ns
    match
      (if level_type == "level_6" then run_level_6_tests ns test_cases
       else if level_type == "level_7" then run_level_7_tests ns test_cases
       else if level_type == "level_8" then run_level_8_tests ns test_cases
       else if level_type == "level_9" then run_level_9_tests ns test_cases
       else if level_type == "level_10" then run_level_10_tests ns test_cases
       else run_single_function_tests ns sub.ast test_cases) with
    | .ok results => .ok results
    | .error e => if e.isException then Except.ok (enumLoop (execFailStep e.msg) 0 test_cases)
                  else Except.error e

/-- The dictionary validate_solution returns.  Its key set varies by branch in
the source, so the two keys that are sometimes absent are Options. -/
structure ValidationReport where
  valid : Bool
  errors : List String
  errors_fixed : Option Nat
  test_results : Option (List TestResult)

/-- Python str() of an optional message, as an f-string interpolates it. -/
def pyOptStr : Option String → String
  | some s => s
  | Option.none => "None"

/-- Embeds LevelManager.validate_solution.  An unknown level returns the
invalid-level dictionary; a syntax error from ast.parse is caught by the
except SyntaxError arm and returned as a Syntax Error report with an empty
result list; otherwise the test cases are executed and the report is valid
exactly when every row passed, a failing run listing one Test failed message
per failing row.  The final except Exception arm of the source would turn an
Exception escaping execute_test_cases into a Runtime Error report; what does
escape execute_test_cases is a raised value outside the Exception class —
SystemExit from sys.exit(), say — and that escapes validate_solution's two
except arms as well: the Except.error result models the exception propagating
uncaught to validate_solution's caller, no dictionary being returned. -/
def validate_solution (level_number : Int) (sub : Submission) :
    Except PyExc ValidationReport :=
  match get_level level_number with
  | Option.none =>
    .ok { valid := false, errors := ["Invalid level"], errors_fixed := some 0,
          test_results := Option.none }
  | some level_data =>
    match sub.ast with
    | .error msg =>
      .ok { valid := false, errors := ["Syntax Error: " ++ msg], errors_fixed := Option.none,
            test_results := some [] }
    | .ok _ =>
      match execute_test_cases sub level_data.test_cases with
      | .error e =>
        if e.isException then
          .ok { valid := false, errors := ["Runtime Error: " ++ e.msg],
                errors_fixed := Option.none, test_results := some [] }
        else .error e
      | .ok test_results =>
        if test_results.all (fun r => r.passed) then
          .ok { valid := true, errors := [], errors_fixed := some level_data.errors.length,
                test_results := some test_results }
        else
          .ok { valid := false,
                errors := (test_results.filter (fun r => !r.passed)).map
                  (fun t => "Test failed: " ++ pyOptStr t.error),
                errors_fixed := Option.none, test_results := some test_results }

/-- The keys of the __builtins__ dictionary execute_test_cases installs in
safe_globals, exactly as the source lists them. -/
def safe_builtin_names : List String :=
  ["len", "sum", "min", "max", "abs", "round", "int", "float", "str",
   "list", "dict", "range", "enumerate", "zip", "sorted", "print",
   "__import__", "ImportError", "ModuleNotFoundError"]

/-- The module objects pre-bound in safe_globals besides the builtins
dictionary and the name string. -/
def preloaded_modules : List String := ["math", "statistics"]

/-- Modelled from the Python runtime, not from this repository: a
representative set of modules the genuine dunder-import builtin can load in a
standard installation.  os grants filesystem and process access, socket grants
network access. -/
def installed_modules : List String :=
  ["math", "statistics", "os", "sys", "socket", "subprocess", "shutil"]

/-- Outcome of one top-level import statement of a submission. -/
inductive ImportOutcome where
  | ok
  | raised (msg : String)
deriving DecidableEq

/-- Embeds what a top-level `import m` in a submission does under
exec(code, safe_globals): the compiled statement looks the name
dunder-import up in the installed builtins mapping — raising ImportError were
that key absent — and calls it on m.  safe_globals binds the genuine importer,
which applies no allow-list, so any installed module loads and only a missing
module raises ModuleNotFoundError. -/
def sandboxImport (m : String) : ImportOutcome :=
  if safe_builtin_names.contains ("__import__") then
    if installed_modules.contains m then .ok
    else .raised ("ModuleNotFoundError")
  else .raised ("ImportError: __import__ not found")

/-- A TypeError, as the per-scenario handlers see one: an Exception instance,
so except Exception catches it. -/
def typeError : PyExc := { msg := "TypeError", isException := true }

/-- SystemExit as sys.exit() raises it: str(SystemExit(None)) is empty, and
the object is not an Exception instance, so no except Exception arm of the
engine catches it. -/
def sysExit : PyExc := { msg := "", isException := false }

/-- A namespace binding exactly the four functions of the level 6 signature
set, every invocation of which raises a TypeError; it exercises dispatch and
the not-passing paths of the harnesses without touching comparison. -/
def ns6 : PyNamespace where
  keys := ["calculate_mean", "calculate_median", "calculate_variance", "calculate_std_dev"]
  isCallable := fun _ => true
  call := fun _ _ => .error typeError
  instantiate := fun _ _ => .error typeError

/-- A parsed, executed submission whose namespace is ns6: four function
definitions at top level, execution succeeding. -/
def sub46 : Submission where
  ast := .ok [.funcDef ("calculate_mean") [], .funcDef ("calculate_median") [],
              .funcDef ("calculate_variance") [], .funcDef ("calculate_std_dev") []]
  run := .ok ns6

/-- A namespace binding the level 8 signature set whose z-score function
returns values 0.05 away from the hard-coded expectations — inside the 0.1
z-score tolerance, outside the 0.01 default — and whose other functions
raise a TypeError. -/
def ns8 : PyNamespace where
  keys := ["calculate_variance", "calculate_std_dev", "calculate_z_scores"]
  isCallable := fun _ => true
  call := fun name _ =>
    if name == "calculate_z_scores" then
      .ok (.list [.num (-136/100), .num (-71/100), .num (5/100), .num (71/100), .num (141/100)])
    else .error typeError
  instantiate := fun _ _ => .error typeError

/-- A namespace with one function f whose call raises ZeroDivisionError — an
Exception — on the input 1 and returns the input plus one otherwise; it
exercises scenario isolation. -/
def nsIso : PyNamespace where
  keys := ["f"]
  isCallable := fun _ => true
  call := fun _ args =>
    match args with
    | [.num q] =>
      if q == 1 then
        .error { msg := "ZeroDivisionError: division by zero", isException := true }
      else .ok (.num (q + 1))
    | _ => .error typeError
  instantiate := fun _ _ => .error typeError

/-- The parse result of a snippet defining the single function f. -/
def astF : Except String (List PyNode) := .ok [.funcDef ("f") []]

/-- Test cases for the isolation witness: the first input makes f raise, the
second is answered correctly. -/
def tcsIso : List TestCase :=
  [{ input := .num 1, output := .num 2, function := Option.none },
   { input := .num 3, output := .num 4, function := Option.none }]

/-- A namespace for a level 1 submission that defines a helper before the
intended target: helper answers 999 to everything, calculate_discriminant
computes the discriminant correctly. -/
def nsHelper : PyNamespace where
  keys := ["helper", "calculate_discriminant"]
  isCallable := fun _ => true
  call := fun name args =>
    match name, args with
    | "helper", _ => .ok (.num 999)
    | "calculate_discriminant", [.num a, .num b, .num c] => .ok (.num (b * b - 4 * a * c))
    | _, _ => .error typeError
  instantiate := fun _ _ => .error typeError

/-- The submission over nsHelper: helper is defined first, so the walk of
extract_main_function meets it first. -/
def subHelper : Submission where
  ast := .ok [.funcDef ("helper") [], .funcDef ("calculate_discriminant") []]
  run := .ok nsHelper

/-- A submission whose source does not parse. -/
def subSyntax : Submission where
  ast := .error ("invalid syntax")
  run := .raised { msg := "SyntaxError: invalid syntax", isException := true }

/-- A submission that parses but whose execution raises a NameError — an
Exception — at top level. -/
def subRaises : Submission where
  ast := .ok [.other []]
  run := .raised { msg := "NameError: name open is not defined", isException := true }

/-- The submission `import sys` then `sys.exit()`: two non-definition
statements that parse, and an execution whose import succeeds — the sandbox
hands it the genuine importer — and whose exit call raises SystemExit, which
escapes exec uncaught by any except Exception. -/
def subExit : Submission where
  ast := .ok [.other [], .other []]
  run := .raised sysExit

/-- A namespace binding one function, calculate_discriminant, whose body runs
`import sys` and `sys.exit()`: every invocation raises SystemExit. -/
def nsExit : PyNamespace where
  keys := ["calculate_discriminant"]
  isCallable := fun _ => true
  call := fun _ _ => .error sysExit
  instantiate := fun _ _ => .error sysExit

/-- The submission defining that function: it parses and executes fine (the
body only runs when called), yielding the namespace above. -/
def subExitFn : Submission where
  ast := .ok [.funcDef ("calculate_discriminant") []]
  run := .ok nsExit

/-- The two rows the single-function loop produces on nsIso and tcsIso: the
first scenario's ZeroDivisionError is recorded as a failing row, the second
scenario still runs and passes. -/
def rowsIso : List TestResult :=
  [{ test_number := 1, passed := false, input := .num 1, expected := .num 2,
     actual := Option.none,
     error := some ("Test execution error: " ++ "ZeroDivisionError: division by zero") },
   { test_number := 2, passed := true, input := .num 3, expected := .num 4,
     actual := some (.num 4), error := Option.none }]

/-- The harness loop produces exactly one row per scenario. -/
theorem enumLoop_length {α : Type} (step : Nat → α → TestResult) :
    ∀ (i : Nat) (l : List α), (enumLoop step i l).length = l.length
  | _, [] => rfl
  | i, _ :: rest => by simp [enumLoop, enumLoop_length step (i + 1) rest]

/-- Row j of the harness loop is the step applied to scenario j alone. -/
theorem enumLoop_get? {α : Type} (step : Nat → α → TestResult) :
    ∀ (i j : Nat) (l : List α), (enumLoop step i l).get? j = (l.get? j).map (step (i + j))
  | _, _, [] => by simp [enumLoop]
  | i, 0, sc :: rest => by simp [enumLoop]
  | i, j + 1, sc :: rest => by
    have h : i + 1 + j = i + (j + 1) := by omega
    simp only [enumLoop, List.get?_cons_succ]
    rw [enumLoop_get? step (i + 1) j rest, h]

/-- Every row the single-function step yields reports the scenario's input
and expected output and numbers itself i + 1, whichever branch built it. -/
theorem singleStep_ok_fields (ns : PyNamespace) (m : Option String) (i : Nat)
    (tc : TestCase) (r : TestResult) (h : singleStep ns m i tc = Except.ok r) :
    r.input = tc.input ∧ r.expected = tc.output ∧ r.test_number = i + 1 := by
  cases m with
  | none =>
    simp only [singleStep] at h
    injection h with h
    subst h
    exact ⟨rfl, rfl, rfl⟩
  | some s =>
    simp only [singleStep] at h
    split at h
    · cases hc : ns.call s (splatArgs tc.input) with
      | ok v =>
        simp only [hc] at h
        injection h with h
        subst h
        exact ⟨rfl, rfl, rfl⟩
      | error e =>
        simp only [hc] at h
        split at h
        · injection h with h
          subst h
          exact ⟨rfl, rfl, rfl⟩
        · exact Except.noConfusion h
    · injection h with h
      subst h
      exact ⟨rfl, rfl, rfl⟩

/-- When the single-function step aborts, the escaping value is outside the
Exception class: everything inside it is converted to a row. -/
theorem singleStep_error_uncatchable (ns : PyNamespace) (m : Option String) (i : Nat)
    (tc : TestCase) (e : PyExc) (h : singleStep ns m i tc = Except.error e) :
    e.isException = false := by
  cases m with
  | none => exact Except.noConfusion h
  | some s =>
    simp only [singleStep] at h
    split at h
    · cases hc : ns.call s (splatArgs tc.input) with
      | ok v =>
        simp only [hc] at h
        exact Except.noConfusion h
      | error e2 =>
        simp only [hc] at h
        split at h
        · exact Except.noConfusion h
        · injection h with h
          subst h
          simp_all
    · exact Except.noConfusion h

/-- When the level 6 step aborts, the escaping value is outside the Exception
class. -/
theorem funcStep6_error_uncatchable (ns : PyNamespace) (i : Nat) (sc : FuncScenario)
    (e : PyExc) (h : funcStep6 ns i sc = Except.error e) : e.isException = false := by
  simp only [funcStep6] at h
  split at h
  · cases hc : ns.call sc.func [sc.input] with
    | ok v =>
      simp only [hc] at h
      exact Except.noConfusion h
    | error e2 =>
      simp only [hc] at h
      split at h
      · exact Except.noConfusion h
      · injection h with h
        subst h
        simp_all
  · exact Except.noConfusion h

/-- A completed harness loop produced exactly one row per scenario. -/
theorem enumLoopE_ok_length {α : Type} (step : Nat → α → Except PyExc TestResult) :
    ∀ (i : Nat) (l : List α) (rows : List TestResult),
      enumLoopE step i l = Except.ok rows → rows.length = l.length
  | _, [], rows, h => by
    simp only [enumLoopE] at h
    injection h with h
    subst h
    rfl
  | i, sc :: rest, rows, h => by
    simp only [enumLoopE] at h
    cases hs : step i sc with
    | error e => simp [hs] at h
    | ok r =>
      cases ht : enumLoopE step (i + 1) rest with
      | error e => simp [hs, ht] at h
      | ok rs =>
        simp only [hs, ht] at h
        injection h with h
        subst h
        simp [enumLoopE_ok_length step (i + 1) rest rs ht]

/-- Row j of a completed harness loop is the step applied to scenario j
alone. -/
theorem enumLoopE_ok_get? {α : Type} (step : Nat → α → Except PyExc TestResult) :
    ∀ (i : Nat) (l : List α) (rows : List TestResult),
      enumLoopE step i l = Except.ok rows →
      ∀ (j : Nat),
        rows.get? j = (l.get? j).bind (fun sc => (step (i + j) sc).toOption)
  | _, [], rows, h, j => by
    simp only [enumLoopE] at h
    injection h with h
    subst h
    simp
  | i, sc :: rest, rows, h, j => by
    simp only [enumLoopE] at h
    cases hs : step i sc with
    | error e => simp [hs] at h
    | ok r =>
      cases ht : enumLoopE step (i + 1) rest with
      | error e => simp [hs, ht] at h
      | ok rs =>
        simp only [hs, ht] at h
        injection h with h
        subst h
        cases j with
        | zero => simp [hs, Except.toOption]
        | succ j =>
          have harith : i + 1 + j = i + (j + 1) := by omega
          have hrec := enumLoopE_ok_get? step (i + 1) rest rs ht j
          simpa [harith] using hrec

/-- A completed harness loop maps a row projection to a scenario projection,
whenever every successful step relates the two. -/
theorem enumLoopE_ok_map {α β : Type} (step : Nat → α → Except PyExc TestResult)
    (g : TestResult → β) (f : α → β)
    (hstep : ∀ (k : Nat) (sc : α) (r : TestResult), step k sc = Except.ok r → g r = f sc) :
    ∀ (i : Nat) (l : List α) (rows : List TestResult),
      enumLoopE step i l = Except.ok rows → rows.map g = l.map f
  | _, [], rows, h => by
    simp only [enumLoopE] at h
    injection h with h
    subst h
    rfl
  | i, sc :: rest, rows, h => by
    simp only [enumLoopE] at h
    cases hs : step i sc with
    | error e => simp [hs] at h
    | ok r =>
      cases ht : enumLoopE step (i + 1) rest with
      | error e => simp [hs, ht] at h
      | ok rs =>
        simp only [hs, ht] at h
        injection h with h
        subst h
        simp [hstep i sc r hs, enumLoopE_ok_map step g f hstep (i + 1) rest rs ht]

/-- The rows of a completed harness loop carry consecutive numbers starting at
i + 1, for any step that numbers each row it yields by its index. -/
theorem enumLoopE_ok_map_test_number {α : Type} (step : Nat → α → Except PyExc TestResult)
    (hstep : ∀ (k : Nat) (sc : α) (r : TestResult),
      step k sc = Except.ok r → r.test_number = k + 1) :
    ∀ (i : Nat) (l : List α) (rows : List TestResult),
      enumLoopE step i l = Except.ok rows →
      rows.map (fun r => r.test_number) = List.range' (i + 1) l.length
  | _, [], rows, h => by
    simp only [enumLoopE] at h
    injection h with h
    subst h
    simp [List.range']
  | i, sc :: rest, rows, h => by
    simp only [enumLoopE] at h
    cases hs : step i sc with
    | error e => simp [hs] at h
    | ok r =>
      cases ht : enumLoopE step (i + 1) rest with
      | error e => simp [hs, ht] at h
      | ok rs =>
        simp only [hs, ht] at h
        injection h with h
        subst h
        simp [List.range', hstep i sc r hs,
              enumLoopE_ok_map_test_number step hstep (i + 1) rest rs ht]

/-- When scenario j aborts and every scenario before it yielded a row, the
whole harness loop aborts with scenario j's escaping value: the rows built so
far are abandoned and no later scenario runs. -/
theorem enumLoopE_abort {α : Type} (step : Nat → α → Except PyExc TestResult) :
    ∀ (i j : Nat) (l : List α) (sc : α) (e : PyExc),
      l.get? j = some sc → step (i + j) sc = Except.error e →
      (∀ (k : Nat) (sck : α), k < j → l.get? k = some sck →
        ∃ r, step (i + k) sck = Except.ok r) →
      enumLoopE step i l = Except.error e
  | _, j, [], sc, e, h, _, _ => by simp at h
  | i, 0, s :: rest, sc, e, h, hstep, _ => by
    have hsc : s = sc := by simpa using h
    subst hsc
    have hs : step i s = Except.error e := by simpa using hstep
    simp [enumLoopE, hs]
  | i, j + 1, s :: rest, sc, e, h, hstep, hok => by
    obtain ⟨r, hr⟩ := hok 0 s (Nat.succ_pos j) rfl
    have hr0 : step i s = Except.ok r := by simpa using hr
    have hrest : rest.get? j = some sc := by simpa using h
    have hstep1 : step (i + 1 + j) sc = Except.error e := by
      have harith : i + 1 + j = i + (j + 1) := by omega
      rw [harith]
      exact hstep
    have hok1 : ∀ (k : Nat) (sck : α), k < j → rest.get? k = some sck →
        ∃ r2, step (i + 1 + k) sck = Except.ok r2 := by
      intro k sck hk hg
      have harith : i + 1 + k = i + (k + 1) := by omega
      rw [harith]
      exact hok (k + 1) sck (by omega) (by simpa using hg)
    have hrec := enumLoopE_abort step (i + 1) j rest sc e hrest hstep1 hok1
    simp [enumLoopE, hr0, hrec]

/-- A harness loop over a step that only propagates values outside the
Exception class aborts only with such a value. -/
theorem enumLoopE_error_uncatchable {α : Type} (step : Nat → α → Except PyExc TestResult)
    (hstep : ∀ (k : Nat) (sc : α) (e : PyExc),
      step k sc = Except.error e → e.isException = false) :
    ∀ (i : Nat) (l : List α) (e : PyExc),
      enumLoopE step i l = Except.error e → e.isException = false
  | _, [], e, h => by simp [enumLoopE] at h
  | i, sc :: rest, e, h => by
    simp only [enumLoopE] at h
    cases hs : step i sc with
    | error e2 =>
      simp only [hs] at h
      injection h with h
      rw [← h]
      exact hstep i sc e2 hs
    | ok r =>
      cases ht : enumLoopE step (i + 1) rest with
      | error e2 =>
        simp only [hs, ht] at h
        injection h with h
        rw [← h]
        exact enumLoopE_error_uncatchable step hstep (i + 1) rest e2 ht
      | ok rs => simp [hs, ht] at h

/-- The walk of extract_main_function returns the first top-level function
definition when nothing before it at top level is one: nodes popped earlier
only append their children behind the definition in the queue. -/
theorem bfs_first_after_clean_front :
    ∀ (pre : List PyNode) (name : String) (cs rest : List PyNode),
      pre.all (fun n => !n.isFuncDef) = true →
      bfsFirstFuncDef (pre ++ .funcDef name cs :: rest) = some name
  | [], name, cs, rest, _ => by simp [bfsFirstFuncDef]
  | p :: pre, name, cs, rest, h => by
    cases p with
    | funcDef nm cs2 => simp [PyNode.isFuncDef] at h
    | other cs2 =>
      have h' : pre.all (fun n => !n.isFuncDef) = true := by
        simp only [List.all_cons, Bool.and_eq_true] at h
        exact h.2
      have step : bfsFirstFuncDef ((PyNode.other cs2 :: pre) ++ .funcDef name cs :: rest) =
          bfsFirstFuncDef (pre ++ .funcDef name cs :: (rest ++ cs2)) := by
        simp [bfsFirstFuncDef, List.append_assoc]
      rw [step]
      exact bfs_first_after_clean_front pre name cs (rest ++ cs2) h'

/-- Concrete evaluation of the isolation fixture: the single-function loop on
nsIso and tcsIso completes with exactly the rowsIso rows. -/
theorem run_single_iso_eval :
    run_single_function_tests nsIso astF tcsIso = Except.ok rowsIso := by
  have hne : (("f" : String).isEmpty) = false := rfl
  norm_num [run_single_function_tests, enumLoopE, singleStep, extract_main_function,
            astF, bfsFirstFuncDef, tcsIso, nsIso, splatArgs, rowsIso, hne,
            compare_outputs, defaultTolerance, abs_lt]

mutual

/-- compare_outputs agrees with the amended spec comparator on every pair of
values and every tolerance. -/
theorem compare_eq_amended_aux : ∀ (a b : Value) (t : ℚ),
    compare_outputs a b t = specEqualAmended a b t
  | .none, .none, _ => rfl
  | .none, .bool _, _ | .none, .num _, _ | .none, .str _, _
  | .none, .list _, _ | .none, .tuple _, _ => rfl
  | .bool _, .none, _ | .num _, .none, _ | .str _, .none, _
  | .list _, .none, _ | .tuple _, .none, _ => rfl
  | .bool _, .bool _, _ | .bool _, .num _, _ | .num _, .bool _, _ | .num _, .num _, _ => rfl
  | .str _, .str _, _ => rfl
  | .bool _, .str _, _ | .str _, .bool _, _ | .num _, .str _, _ | .str _, .num _, _ => rfl
  | .bool _, .list _, _ | .bool _, .tuple _, _ | .num _, .list _, _ | .num _, .tuple _, _ => rfl
  | .str _, .list _, _ | .str _, .tuple _, _ => rfl
  | .list _, .bool _, _ | .list _, .num _, _ | .list _, .str _, _ => rfl
  | .tuple _, .bool _, _ | .tuple _, .num _, _ | .tuple _, .str _, _ => rfl
  | .list xs, .list ys, t => by
    simp only [compare_outputs, specEqualAmended]
    exact compareSeq_eq_amended_aux xs ys t
  | .list xs, .tuple ys, t => by
    simp only [compare_outputs, specEqualAmended]
    exact compareSeq_eq_amended_aux xs ys t
  | .tuple xs, .list ys, t => by
    simp only [compare_outputs, specEqualAmended]
    exact compareSeq_eq_amended_aux xs ys t
  | .tuple xs, .tuple ys, t => by
    simp only [compare_outputs, specEqualAmended]
    exact compareSeq_eq_amended_aux xs ys t
termination_by structural a => a

/-- The fused sequence comparison equals the spec's separate length test
followed by a truncating element-wise pass. -/
theorem compareSeq_eq_amended_aux : ∀ (xs ys : List Value) (t : ℚ),
    compareSeq xs ys t = (decide (xs.length = ys.length) && specZipAmended xs ys t)
  | [], [], _ => rfl
  | [], _ :: _, _ => by simp [compareSeq, specZipAmended]
  | _ :: _, [], _ => by simp [compareSeq]
  | x :: xs, y :: ys, t => by
    have h1 := compare_eq_amended_aux x y t
    have h2 := compareSeq_eq_amended_aux xs ys t
    simp only [compareSeq, specZipAmended, List.length_cons, h1, h2]
    by_cases hl : xs.length = ys.length <;>
      simp [hl, Bool.and_left_comm, Bool.and_comm, Bool.and_assoc]
termination_by structural xs => xs

end

mutual

/-- compare_outputs is reflexive at every positive tolerance. -/
theorem compare_self_aux : ∀ (x : Value) (t : ℚ), 0 < t → compare_outputs x x t = true
  | .none, _, _ => rfl
  | .bool _, t, ht => by simp [compare_outputs, sub_self, abs_zero, ht]
  | .num _, t, ht => by simp [compare_outputs, sub_self, abs_zero, ht]
  | .str _, _, _ => by simp [compare_outputs]
  | .list xs, t, ht => by
    simp only [compare_outputs]
    exact compareSeq_self_aux xs t ht
  | .tuple xs, t, ht => by
    simp only [compare_outputs]
    exact compareSeq_self_aux xs t ht
termination_by structural x => x

/-- The sequence comparison is reflexive at every positive tolerance. -/
theorem compareSeq_self_aux : ∀ (xs : List Value) (t : ℚ), 0 < t → compareSeq xs xs t = true
  | [], _, _ => rfl
  | x :: xs, t, ht => by
    simp [compareSeq, compare_self_aux x t ht, compareSeq_self_aux xs t ht]
termination_by structural xs => xs

end

mutual

/-- compare_outputs is symmetric at every tolerance. -/
theorem compare_symm_aux : ∀ (a b : Value) (t : ℚ),
    compare_outputs a b t = compare_outputs b a t
  | .none, .none, _ => rfl
  | .none, .bool _, _ | .none, .num _, _ | .none, .str _, _
  | .none, .list _, _ | .none, .tuple _, _ => rfl
  | .bool _, .none, _ | .num _, .none, _ | .str _, .none, _
  | .list _, .none, _ | .tuple _, .none, _ => rfl
  | .bool _, .bool _, t => by simp [compare_outputs, abs_sub_comm]
  | .bool _, .num _, t => by simp [compare_outputs, abs_sub_comm]
  | .num _, .bool _, t => by simp [compare_outputs, abs_sub_comm]
  | .num _, .num _, t => by simp [compare_outputs, abs_sub_comm]
  | .str _, .str _, _ => by simp [compare_outputs, eq_comm]
  | .bool _, .str _, _ | .str _, .bool _, _ | .num _, .str _, _ | .str _, .num _, _ => rfl
  | .bool _, .list _, _ | .list _, .bool _, _ | .bool _, .tuple _, _ | .tuple _, .bool _, _ => rfl
  | .num _, .list _, _ | .list _, .num _, _ | .num _, .tuple _, _ | .tuple _, .num _, _ => rfl
  | .str _, .list _, _ | .list _, .str _, _ | .str _, .tuple _, _ | .tuple _, .str _, _ => rfl
  | .list xs, .list ys, t => by
    simp only [compare_outputs]
    exact compareSeq_symm_aux xs ys t
  | .list xs, .tuple ys, t => by
    simp only [compare_outputs]
    exact compareSeq_symm_aux xs ys t
  | .tuple xs, .list ys, t => by
    simp only [compare_outputs]
    exact compareSeq_symm_aux xs ys t
  | .tuple xs, .tuple ys, t => by
    simp only [compare_outputs]
    exact compareSeq_symm_aux xs ys t
termination_by structural a => a

/-- The sequence comparison is symmetric at every tolerance. -/
theorem compareSeq_symm_aux : ∀ (xs ys : List Value) (t : ℚ),
    compareSeq xs ys t = compareSeq ys xs t
  | [], [], _ => rfl
  | [], _ :: _, _ => rfl
  | _ :: _, [], _ => rfl
  | x :: xs, y :: ys, t => by
    simp [compareSeq, compare_symm_aux x y t, compareSeq_symm_aux xs ys t]
termination_by structural xs => xs

end

/-- C7 counterexample: the claim says a boolean paired with a number is
compared by exact equality only, never with numeric tolerance; the code
compares True against 1.005 in the numeric branch and accepts it at the
default tolerance, where the spec comparator rejects it. -/
theorem compare_outputs_diverges_from_spec_on_bools :
    compare_outputs (.bool true) (.num (201/200)) defaultTolerance = true ∧
    specEqualWithinTolerance (.bool true) (.num (201/200)) defaultTolerance = false := by
  constructor
  · norm_num [compare_outputs, defaultTolerance, pyBool, abs_lt]
  · rfl

/-- C7, amended: compare_outputs implements the spec's recursive comparison
rules with the numeric clause covering booleans as well (bool being a subclass
of int in Python): both null equal; exactly one null unequal; numbers and
booleans within strict tolerance; sequences element-wise at equal length; any
remaining pairing by exact equality, which across distinct types is false. -/
theorem compare_outputs_matches_amended_spec :
    ∀ (a b : Value) (t : ℚ), compare_outputs a b t = specEqualAmended a b t :=
  compare_eq_amended_aux

/-- C9 counterexample: the claim quantifies over every tolerance, but the
numeric branch uses a strict inequality, so at tolerance zero a number is not
equal to itself. -/
theorem reflexivity_fails_at_tolerance_zero :
    compare_outputs (.num 5) (.num 5) 0 = false := by
  norm_num [compare_outputs]

/-- C9, amended: compare_outputs is reflexive at every positive tolerance and
symmetric at every tolerance. -/
theorem compare_outputs_refl_pos_and_symm :
    (∀ (x : Value) (t : ℚ), 0 < t → compare_outputs x x t = true) ∧
    (∀ (a b : Value) (t : ℚ), compare_outputs a b t = compare_outputs b a t) :=
  ⟨compare_self_aux, compare_symm_aux⟩

/-- Witness for the amended C9 theorem at concrete inputs: reflexivity at
tolerance one, symmetry at a mixed-type pair. -/
theorem compare_outputs_refl_pos_and_symm_witness :
    compare_outputs (.num 5) (.num 5) 1 = true ∧
    compare_outputs (.num 2) (.str ("x")) (1/2) =
      compare_outputs (.str ("x")) (.num 2) (1/2) :=
  ⟨compare_outputs_refl_pos_and_symm.1 (.num 5) 1 (by norm_num),
   compare_outputs_refl_pos_and_symm.2 (.num 2) (.str ("x")) (1/2)⟩

/-- C2 counterexample: the claim says a submission importing a module outside
the allow-list yields a runtime error, but os — neither among the builtins nor
among the pre-bound modules — imports successfully, because the allow-list
itself hands the submission the unrestricted importer. -/
theorem import_outside_allowlist_succeeds :
    sandboxImport ("os") = ImportOutcome.ok ∧
    safe_builtin_names.contains ("os") = false ∧
    preloaded_modules.contains ("os") = false := by
  refine ⟨?_, by decide, by decide⟩
  simp [sandboxImport, safe_builtin_names, installed_modules]

/-- C2, amended: the execution namespace exposes exactly the listed builtins
plus the math and statistics modules, but the listed builtins include the
genuine unrestricted importer, so an import of any installed module — os and
socket included — succeeds, and only a module that is not installed raises. -/
theorem sandbox_exposes_unrestricted_import :
    safe_builtin_names.contains ("__import__") = true ∧
    (∀ m, installed_modules.contains m = true → sandboxImport m = ImportOutcome.ok) ∧
    (∀ m, installed_modules.contains m = false →
      sandboxImport m = ImportOutcome.raised ("ModuleNotFoundError")) := by
  refine ⟨by decide, ?_, ?_⟩ <;> intro m hm <;>
    simp [sandboxImport, safe_builtin_names] <;> simpa using hm

/-- Witness for the amended C2 theorem: os (installed, outside the allow-list)
imports successfully; a module that is not installed raises. -/
theorem sandbox_unrestricted_import_witness :
    sandboxImport ("os") = ImportOutcome.ok ∧
    sandboxImport ("no_such_module") = ImportOutcome.raised ("ModuleNotFoundError") :=
  ⟨sandbox_exposes_unrestricted_import.2.1 ("os") (by decide),
   sandbox_exposes_unrestricted_import.2.2 ("no_such_module") (by decide)⟩

/-- C1: the level 8 record carries no solution_code key, although
solution_code is among the integrity check's required fields; the engine's own
validate_level_data_integrity therefore reports the catalog invalid, flagging
exactly that record — there is no reference solution for level 8 that
validate_solution could accept. -/
theorem level8_missing_solution_code :
    level8.solution_code = Option.none ∧
    required_fields.contains ("solution_code") = true ∧
    validate_level_data_integrity.valid = false ∧
    validate_level_data_integrity.issues =
      ["Level 8: Missing fields: ['solution_code']"] ∧
    validate_level_data_integrity.valid_levels = 9 := by
  refine ⟨rfl, by decide, ?_, ?_, ?_⟩ <;>
    (simp [validate_level_data_integrity, integrityStep, get_level, levels_data,
           missing_fields, required_fields, level1, level2, level3, level4, level5,
           level6, level7, level8, level9, level10, snippetParses, strContains,
           charContains, charPrefix, pyReprStrList, String.intercalate]
     <;> decide)

/-- C3 counterexample: the claim says validate_solution always returns a
result dictionary and never lets an exception propagate to the caller.  The
submission `import sys` then `sys.exit()` parses, so neither the
invalid-level nor the SyntaxError arm fires; exec raises SystemExit, which is
not an Exception instance, so it passes through the except Exception of
execute_test_cases and through both except arms of validate_solution: the
call raises to the caller instead of returning a dictionary. -/
theorem uncatchable_exception_escapes_validate :
    validate_solution 1 subExit = Except.error sysExit ∧
    sysExit.isException = false := by
  constructor
  · have hlvl : get_level 1 = some level1 := rfl
    simp [validate_solution, hlvl, subExit, execute_test_cases, sysExit]
  · rfl

/-- C3, amended: validate_solution converts to report fields every failure
that raises an Exception — the class its handlers catch: a valid report
happens exactly when the level exists, the source parses and the completed
run passed every row; an invalid report always carries at least one error
message; an unknown level, a syntax error, an Exception escaping exec (one
failing Code-execution-failed row per declared test case) and an Exception
escaping the dispatch (the Runtime Error report) each produce their specific
report.  A raised value outside the Exception class — SystemExit from
sys.exit(), reachable because the sandbox exposes the genuine importer —
escapes every handler and propagates uncaught to the caller, whether it
escapes exec or a harness scenario. -/
theorem validate_reports_catchable_failures (n : Int) (sub : Submission) :
    ((validate_solution n sub).map (fun rep => rep.valid) = Except.ok true ↔
      ∃ ld rows, get_level n = some ld ∧ (∃ b, sub.ast = Except.ok b) ∧
        execute_test_cases sub ld.test_cases = Except.ok rows ∧
        rows.all (fun r => r.passed) = true) ∧
    (∀ rep, validate_solution n sub = Except.ok rep → rep.valid = false →
      rep.errors ≠ []) ∧
    (get_level n = Option.none →
      validate_solution n sub =
        Except.ok { valid := false, errors := ["Invalid level"], errors_fixed := some 0,
                    test_results := Option.none }) ∧
    (∀ msg ld, get_level n = some ld → sub.ast = Except.error msg →
      validate_solution n sub =
        Except.ok { valid := false, errors := ["Syntax Error: " ++ msg],
                    errors_fixed := Option.none, test_results := some [] }) ∧
    (∀ ld body e, get_level n = some ld → sub.ast = Except.ok body →
      sub.run = ExecOutcome.raised e → e.isException = true →
      (validate_solution n sub).map (fun rep => rep.test_results) =
        Except.ok (some (enumLoop (execFailStep e.msg) 0 ld.test_cases)) ∧
      ∀ j tc, ld.test_cases.get? j = some tc →
        (enumLoop (execFailStep e.msg) 0 ld.test_cases).get? j =
          some { test_number := j + 1, passed := false, input := tc.input,
                 expected := tc.output, actual := Option.none,
                 error := some ("Code execution failed: " ++ e.msg) }) ∧
    (∀ ld body e, get_level n = some ld → sub.ast = Except.ok body →
      sub.run = ExecOutcome.raised e → e.isException = false →
      validate_solution n sub = Except.error e) ∧
    (∀ ld body e, get_level n = some ld → sub.ast = Except.ok body →
      execute_test_cases sub ld.test_cases = Except.error e →
      (e.isException = true →
        validate_solution n sub =
          Except.ok { valid := false, errors := ["Runtime Error: " ++ e.msg],
                      errors_fixed := Option.none, test_results := some [] }) ∧
      (e.isException = false → validate_solution n sub = Except.error e)) := by
  cases hl : get_level n with
  | none =>
    have hv : validate_solution n sub =
        Except.ok { valid := false, errors := ["Invalid level"], errors_fixed := some 0,
                    test_results := Option.none } := by
      simp [validate_solution, hl]
    refine ⟨?_, ?_, fun _ => hv, fun msg ld2 hld2 => absurd hld2 (by simp),
      fun ld2 body2 e2 hld2 => absurd hld2 (by simp),
      fun ld2 body2 e2 hld2 => absurd hld2 (by simp),
      fun ld2 body2 e2 hld2 => absurd hld2 (by simp)⟩
    · rw [hv]
      constructor
      · intro hx
        simp [Except.map] at hx
      · rintro ⟨ld2, rows, hld2, _⟩
        exact Option.noConfusion hld2
    · intro rep hrep
      rw [hv] at hrep
      injection hrep with hrep
      subst hrep
      simp
  | some ld =>
    cases ha : sub.ast with
    | error msg =>
      have hv : validate_solution n sub =
          Except.ok { valid := false, errors := ["Syntax Error: " ++ msg],
                      errors_fixed := Option.none, test_results := some [] } := by
        simp [validate_solution, hl, ha]
      refine ⟨?_, ?_, fun h => absurd h (by simp), ?_,
        fun ld2 body2 e2 hld2 hast2 => absurd hast2 (by simp),
        fun ld2 body2 e2 hld2 hast2 => absurd hast2 (by simp),
        fun ld2 body2 e2 hld2 hast2 => absurd hast2 (by simp)⟩
      · rw [hv]
        constructor
        · intro hx
          simp [Except.map] at hx
        · rintro ⟨ld2, rows, hld2, ⟨b, hb⟩, _⟩
          exact Except.noConfusion hb
      · intro rep hrep
        rw [hv] at hrep
        injection hrep with hrep
        subst hrep
        simp
      · intro msg2 ld2 hld2 hast2
        injection hast2 with hmsg
        subst hmsg
        exact hv
    | ok body =>
      have hrows : ∀ (msg : String), ∀ j tc, ld.test_cases.get? j = some tc →
          (enumLoop (execFailStep msg) 0 ld.test_cases).get? j =
            some { test_number := j + 1, passed := false, input := tc.input,
                   expected := tc.output, actual := Option.none,
                   error := some ("Code execution failed: " ++ msg) } := by
        intro msg j tc htc
        rw [enumLoop_get? (execFailStep msg) 0 j ld.test_cases, htc]
        simp [execFailStep]
      cases hex : execute_test_cases sub ld.test_cases with
      | error e =>
        refine ⟨?_, ?_, fun h => absurd h (by simp),
          fun msg ld2 hld2 hast2 => absurd hast2 (by simp), ?_, ?_, ?_⟩
        · constructor
          · intro hx
            by_cases hc : e.isException = true
            · have hval : validate_solution n sub =
                  Except.ok { valid := false, errors := ["Runtime Error: " ++ e.msg],
                              errors_fixed := Option.none, test_results := some [] } := by
                simp [validate_solution, hl, ha, hex, hc]
              rw [hval] at hx
              simp [Except.map] at hx
            · have hcf : e.isException = false := by
                cases hb : e.isException
                · rfl
                · exact absurd hb hc
              have hval : validate_solution n sub = Except.error e := by
                simp [validate_solution, hl, ha, hex, hcf]
              rw [hval] at hx
              simp [Except.map] at hx
          · rintro ⟨ld2, rows, hld2, _, hex2, _⟩
            injection hld2 with hld2
            subst hld2
            rw [hex] at hex2
            exact Except.noConfusion hex2
        · intro rep hrep hvf
          by_cases hc : e.isException = true
          · have hval : validate_solution n sub =
                Except.ok { valid := false, errors := ["Runtime Error: " ++ e.msg],
                            errors_fixed := Option.none, test_results := some [] } := by
              simp [validate_solution, hl, ha, hex, hc]
            rw [hval] at hrep
            injection hrep with hrep
            subst hrep
            simp
          · have hcf : e.isException = false := by
              cases hb : e.isException
              · rfl
              · exact absurd hb hc
            have hval : validate_solution n sub = Except.error e := by
              simp [validate_solution, hl, ha, hex, hcf]
            rw [hval] at hrep
            exact Except.noConfusion hrep
        · intro ld2 body2 e2 hld2 hast2 hrun hc2
          have hex2 : execute_test_cases sub ld.test_cases =
              Except.ok (enumLoop (execFailStep e2.msg) 0 ld.test_cases) := by
            simp [execute_test_cases, hrun, hc2]
          rw [hex] at hex2
          exact Except.noConfusion hex2
        · intro ld2 body2 e2 hld2 hast2 hrun hc2
          have hex2 : execute_test_cases sub ld.test_cases = Except.error e2 := by
            simp [execute_test_cases, hrun, hc2]
          rw [hex] at hex2
          injection hex2 with hex2
          subst hex2
          simp [validate_solution, hl, ha, hex, hc2]
        · intro ld2 body2 e2 hld2 hast2 hex2
          injection hld2 with hld2
          subst hld2
          rw [hex] at hex2
          injection hex2 with hex2
          subst hex2
          constructor
          · intro hc2
            simp [validate_solution, hl, ha, hex, hc2]
          · intro hc2
            simp [validate_solution, hl, ha, hex, hc2]
      | ok rows =>
        have harm5 : ∀ (ld2 : LevelData) (body2 : List PyNode) (e2 : PyExc),
            (some ld : Option LevelData) = some ld2 →
            (Except.ok body : Except String (List PyNode)) = Except.ok body2 →
            sub.run = ExecOutcome.raised e2 → e2.isException = true →
            (validate_solution n sub).map (fun rep => rep.test_results) =
              Except.ok (some (enumLoop (execFailStep e2.msg) 0 ld2.test_cases)) ∧
            ∀ j tc, ld2.test_cases.get? j = some tc →
              (enumLoop (execFailStep e2.msg) 0 ld2.test_cases).get? j =
                some { test_number := j + 1, passed := false, input := tc.input,
                       expected := tc.output, actual := Option.none,
                       error := some ("Code execution failed: " ++ e2.msg) } := by
          intro ld2 body2 e2 hld2 hast2 hrun hc2
          injection hld2 with hld2
          subst hld2
          have hex2 : execute_test_cases sub ld.test_cases =
              Except.ok (enumLoop (execFailStep e2.msg) 0 ld.test_cases) := by
            simp [execute_test_cases, hrun, hc2]
          rw [hex] at hex2
          injection hex2 with hex2
          refine ⟨?_, hrows e2.msg⟩
          have hval : (validate_solution n sub).map (fun rep => rep.test_results) =
              Except.ok (some rows) := by
            simp only [validate_solution, hl, ha, hex]
            split <;> simp [Except.map]
          rw [hval, hex2]
        have harm6 : ∀ (ld2 : LevelData) (body2 : List PyNode) (e2 : PyExc),
            (some ld : Option LevelData) = some ld2 →
            (Except.ok body : Except String (List PyNode)) = Except.ok body2 →
            sub.run = ExecOutcome.raised e2 → e2.isException = false →
            validate_solution n sub = Except.error e2 := by
          intro ld2 body2 e2 hld2 hast2 hrun hc2
          have hex2 : execute_test_cases sub ld.test_cases = Except.error e2 := by
            simp [execute_test_cases, hrun, hc2]
          rw [hex] at hex2
          exact Except.noConfusion hex2
        have harm7 : ∀ (ld2 : LevelData) (body2 : List PyNode) (e2 : PyExc),
            (some ld : Option LevelData) = some ld2 →
            (Except.ok body : Except String (List PyNode)) = Except.ok body2 →
            execute_test_cases sub ld2.test_cases = Except.error e2 →
            (e2.isException = true →
              validate_solution n sub =
                Except.ok { valid := false, errors := ["Runtime Error: " ++ e2.msg],
                            errors_fixed := Option.none, test_results := some [] }) ∧
            (e2.isException = false → validate_solution n sub = Except.error e2) := by
          intro ld2 body2 e2 hld2 hast2 hex2
          injection hld2 with hld2
          subst hld2
          rw [hex] at hex2
          exact Except.noConfusion hex2
        by_cases hall : rows.all (fun r => r.passed) = true
        · have hval : validate_solution n sub =
              Except.ok { valid := true, errors := [], errors_fixed := some ld.errors.length,
                          test_results := some rows } := by
            simp [validate_solution, hl, ha, hex, hall]
          refine ⟨?_, ?_, fun h => absurd h (by simp),
            fun msg ld2 hld2 hast2 => absurd hast2 (by simp), harm5, harm6, harm7⟩
          · constructor
            · intro _
              exact ⟨ld, rows, rfl, ⟨body, rfl⟩, hex, hall⟩
            · intro _
              rw [hval]
              simp [Except.map]
          · intro rep hrep hvf
            rw [hval] at hrep
            injection hrep with hrep
            subst hrep
            exact absurd hvf (by simp)
        · have hallf : rows.all (fun r => r.passed) = false := by
            cases hb : rows.all (fun r => r.passed)
            · rfl
            · exact absurd hb hall
          obtain ⟨x, hx, hpx⟩ : ∃ x ∈ rows, x.passed = false := by
            obtain ⟨x, hx, hpx⟩ := List.all_eq_false.mp hallf
            exact ⟨x, hx, by simpa using hpx⟩
          have hval : validate_solution n sub =
              Except.ok { valid := false,
                          errors := (rows.filter (fun r => !r.passed)).map
                            (fun t => "Test failed: " ++ pyOptStr t.error),
                          errors_fixed := Option.none, test_results := some rows } := by
            simp [validate_solution, hl, ha, hex, hallf]
          refine ⟨?_, ?_, fun h => absurd h (by simp),
            fun msg ld2 hld2 hast2 => absurd hast2 (by simp), harm5, harm6, harm7⟩
          · constructor
            · intro hx2
              rw [hval] at hx2
              simp [Except.map] at hx2
            · rintro ⟨ld2, rows2, hld2, _, hex2, hall2⟩
              injection hld2 with hld2
              subst hld2
              rw [hex] at hex2
              injection hex2 with hex2
              subst hex2
              exact absurd hall2 hall
          · intro rep hrep hvf
            rw [hval] at hrep
            injection hrep with hrep
            subst hrep
            simp only [ne_eq, List.map_eq_nil_iff, List.filter_eq_nil_iff]
            intro hnone
            exact absurd hpx (by simpa using hnone x hx)

/-- Witness for the amended C3 theorem at concrete inputs: an unknown level, a
non-parsing submission at level 1, a submission whose execution raises a
NameError at level 1 — each yielding its specific report — and the sys.exit()
submission at level 2, whose SystemExit propagates. -/
theorem validate_reports_catchable_witness :
    validate_solution 99 subSyntax =
      Except.ok { valid := false, errors := ["Invalid level"], errors_fixed := some 0,
                  test_results := Option.none } ∧
    validate_solution 1 subSyntax =
      Except.ok { valid := false, errors := ["Syntax Error: invalid syntax"],
                  errors_fixed := Option.none, test_results := some [] } ∧
    (validate_solution 1 subRaises).map (fun rep => rep.test_results) =
      Except.ok (some (enumLoop (execFailStep ("NameError: name open is not defined")) 0
        level1.test_cases)) ∧
    validate_solution 2 subExit = Except.error sysExit :=
  ⟨(validate_reports_catchable_failures 99 subSyntax).2.2.1 rfl,
   (validate_reports_catchable_failures 1 subSyntax).2.2.2.1 ("invalid syntax")
     level1 rfl rfl,
   ((validate_reports_catchable_failures 1 subRaises).2.2.2.2.1 level1
     [.other []] { msg := "NameError: name open is not defined", isException := true }
     rfl rfl rfl rfl).1,
   (validate_reports_catchable_failures 2 subExit).2.2.2.2.2.1 level2
     [.other [], .other []] sysExit rfl rfl rfl rfl⟩

/-- C4 counterexample: the claim says detection takes the exercise into
account and a submission for exercise A is still tested against A's scenarios
even when its namespace carries exercise B's signature set.  In the code,
detect_level_type reads only the namespace: validating this submission as
level 1 dispatches to the level 6 harness, producing its nine hard-coded rows
instead of one row per level 1 test case. -/
theorem detection_ignores_the_exercise :
    detect_level_type ns6 = "level_6" ∧
    execute_test_cases sub46 level1.test_cases = run_level_6_tests ns6 level1.test_cases ∧
    (execute_test_cases sub46 level1.test_cases).map List.length = Except.ok 9 ∧
    level1.test_cases.length = 3 ∧
    (execute_test_cases sub46 level1.test_cases).map (List.map (fun r => r.input)) ≠
      Except.ok (level1.test_cases.map (fun tc => tc.input)) := by
  refine ⟨by decide, ?_, ?_, rfl, ?_⟩
  · simp [execute_test_cases, sub46, detect_level_type, callable_functions, ns6,
          startsWithUnderscore, run_level_6_tests, enumLoopE, funcStep6,
          level6_scenarios, typeError, Except.map]
  · simp [execute_test_cases, sub46, detect_level_type, callable_functions, ns6,
          startsWithUnderscore, run_level_6_tests, enumLoopE, funcStep6,
          level6_scenarios, typeError, Except.map]
  · intro h
    have h9 : (execute_test_cases sub46 level1.test_cases).map (List.map (fun r => r.input)) =
        Except.ok (level6_scenarios.map (fun sc => sc.input)) := by
      simp [execute_test_cases, sub46, detect_level_type, callable_functions, ns6,
            startsWithUnderscore, run_level_6_tests, enumLoopE, funcStep6,
            level6_scenarios, typeError, Except.map]
    rw [h9] at h
    injection h with h
    have hlen := congrArg List.length h
    simp [level6_scenarios, level1] at hlen

/-- C4, amended: which harness runs is decided from the executed namespace's
callable names alone — a global signature heuristic in which the exercise
being validated plays no role.  Whenever the namespace contains the level 6
signature set, execute_test_cases runs the level 6 hard-coded scenarios,
whatever exercise the declared test cases belong to. -/
theorem dispatch_reads_namespace_only :
    ∀ (sub : Submission) (ns : PyNamespace) (tcs : List TestCase),
      sub.run = ExecOutcome.ok ns →
      (["calculate_mean", "calculate_median", "calculate_variance",
        "calculate_std_dev"].all (callable_functions ns).contains) = true →
      execute_test_cases sub tcs = run_level_6_tests ns tcs := by
  intro sub ns tcs hrun hsig
  simp only [execute_test_cases, hrun, detect_level_type, hsig, if_true]
  cases h6 : run_level_6_tests ns tcs with
  | ok rows => simp [h6]
  | error e =>
    have hfree : e.isException = false :=
      enumLoopE_error_uncatchable (funcStep6 ns)
        (fun k sc e2 h => funcStep6_error_uncatchable ns k sc e2 h) 0 level6_scenarios e h6
    simp [h6, hfree]

/-- Witness for the amended C4 theorem: the level-6-shaped namespace makes the
dispatcher run the level 6 harness on level 1's declared test cases. -/
theorem dispatch_reads_namespace_only_witness :
    execute_test_cases sub46 level1.test_cases = run_level_6_tests ns6 level1.test_cases :=
  dispatch_reads_namespace_only sub46 ns6 level1.test_cases rfl (by decide)

/-- C5 counterexample: validating level 6 itself, the report's rows are the
nine hard-coded harness scenarios, not one row per the four test scenarios the
level 6 record declares — the correspondence the claim asserts fails even for
the right exercise. -/
theorem rows_not_one_to_one_with_declared :
    (validate_solution 6 sub46).map (fun rep => rep.test_results) =
      (run_level_6_tests ns6 level6.test_cases).map (fun rows => some rows) ∧
    (run_level_6_tests ns6 level6.test_cases).map List.length = Except.ok 9 ∧
    level6.test_cases.length = 4 := by
  refine ⟨?_, ?_, rfl⟩
  · simp [validate_solution, get_level, levels_data, execute_test_cases, sub46,
          detect_level_type, callable_functions, ns6, startsWithUnderscore,
          run_level_6_tests, enumLoopE, level6_scenarios, funcStep6, level6,
          typeError, pyOptStr, Except.map]
  · simp [run_level_6_tests, enumLoopE, level6_scenarios, funcStep6, ns6, typeError,
          Except.map]

/-- C5, amended: the one-result-per-declared-scenario correspondence holds
exactly on the single-function path (levels 1..5): whenever its loop
completes, its rows repeat the declared inputs and expected outputs in
declaration order with consecutive numbering (a loop that does not complete
was aborted by a raised value outside the Exception class and yields no
rows at all).  The level 6..10 harnesses instead produce one row per
hard-coded scenario of their own — 9, 4, 4, 4 and 3 rows when they complete —
whatever the record declares. -/
theorem rows_one_to_one_only_for_single_function :
    (∀ (ns : PyNamespace) (code : Except String (List PyNode)) (tcs : List TestCase)
        (rows : List TestResult),
      run_single_function_tests ns code tcs = Except.ok rows →
      rows.map (fun r => (r.input, r.expected)) = tcs.map (fun tc => (tc.input, tc.output)) ∧
      rows.map (fun r => r.test_number) = List.range' 1 tcs.length) ∧
    (∀ (ns : PyNamespace) (tcs : List TestCase) (rows : List TestResult),
      (run_level_6_tests ns tcs = Except.ok rows → rows.length = 9) ∧
      (run_level_7_tests ns tcs = Except.ok rows → rows.length = 4) ∧
      (run_level_8_tests ns tcs = Except.ok rows → rows.length = 4) ∧
      (run_level_9_tests ns tcs = Except.ok rows → rows.length = 4) ∧
      (run_level_10_tests ns tcs = Except.ok rows → rows.length = 3)) := by
  constructor
  · intro ns code tcs rows hrows
    constructor
    · exact enumLoopE_ok_map (singleStep ns (extract_main_function code))
        (fun r => (r.input, r.expected)) (fun tc => (tc.input, tc.output))
        (fun k tc r h => by
          obtain ⟨h1, h2, _⟩ := singleStep_ok_fields ns (extract_main_function code) k tc r h
          simp [h1, h2])
        0 tcs rows hrows
    · exact enumLoopE_ok_map_test_number (singleStep ns (extract_main_function code))
        (fun k tc r h => (singleStep_ok_fields ns (extract_main_function code) k tc r h).2.2)
        0 tcs rows hrows
  · intro ns tcs rows
    refine ⟨fun h => ?_, fun h => ?_, fun h => ?_, fun h => ?_, fun h => ?_⟩ <;>
      simp only [run_level_6_tests, run_level_7_tests, run_level_8_tests,
                 run_level_9_tests, run_level_10_tests] at h <;>
      rw [enumLoopE_ok_length _ 0 _ rows h] <;> rfl

/-- Witness for the amended C5 theorem at concrete inputs: the completed
two-scenario single-function run repeats the declared inputs, expected
outputs and consecutive numbers. -/
theorem rows_one_to_one_witness :
    rowsIso.map (fun r => (r.input, r.expected)) =
      tcsIso.map (fun tc => (tc.input, tc.output)) ∧
    rowsIso.map (fun r => r.test_number) = List.range' 1 tcsIso.length := by
  exact rows_one_to_one_only_for_single_function.1 nsIso astF tcsIso rowsIso
    run_single_iso_eval

/-- C6 counterexample: the claim says a failing scenario — its example being a
function that raises — is recorded and every subsequent scenario still
executes.  A tested function whose body calls sys.exit() raises SystemExit,
which the per-scenario except Exception does not catch: validating such a
level 1 submission, the first declared scenario aborts the whole loop, no row
list is produced for the three declared scenarios, and the exception
propagates out of validate_solution. -/
theorem systemexit_aborts_scenario_loop :
    run_single_function_tests nsExit subExitFn.ast level1.test_cases =
      Except.error sysExit ∧
    level1.test_cases.length = 3 ∧
    validate_solution 1 subExitFn = Except.error sysExit := by
  refine ⟨?_, rfl, ?_⟩
  · have hne : (("calculate_discriminant" : String).isEmpty) = false := rfl
    simp [run_single_function_tests, enumLoopE, singleStep, extract_main_function,
          subExitFn, bfsFirstFuncDef, level1, nsExit, splatArgs, sysExit, hne]
  · have hlvl : get_level 1 = some level1 := rfl
    have hdetect : detect_level_type nsExit = "single_function" := by decide
    have hrun : subExitFn.run = ExecOutcome.ok nsExit := rfl
    have hast : subExitFn.ast =
        Except.ok [PyNode.funcDef ("calculate_discriminant") []] := rfl
    have hmain : extract_main_function subExitFn.ast =
        some ("calculate_discriminant") := by
      simp [extract_main_function, subExitFn, bfsFirstFuncDef]
    have hmain' : extract_main_function
        (Except.ok [PyNode.funcDef ("calculate_discriminant") []]) =
        some ("calculate_discriminant") := by
      simp [extract_main_function, bfsFirstFuncDef]
    have hne : (("calculate_discriminant" : String).isEmpty) = false := rfl
    have h6 : (("single_function" : String) == "level_6") = false := by decide
    have h7 : (("single_function" : String) == "level_7") = false := by decide
    have h8 : (("single_function" : String) == "level_8") = false := by decide
    have h9 : (("single_function" : String) == "level_9") = false := by decide
    have h10 : (("single_function" : String) == "level_10") = false := by decide
    simp [validate_solution, hlvl, hast, execute_test_cases, hrun, hdetect,
          h6, h7, h8, h9, h10, run_single_function_tests, hmain, hmain']
    norm_num [enumLoopE, level1, singleStep, splatArgs, nsExit, hne, sysExit]

/-- C6, amended: scenario isolation holds exactly for the exceptions the
per-scenario except Exception catches.  A scenario whose invocation raises an
Exception is recorded as a failing row carrying the message and does not
abort the loop — a completed run has one row per declared scenario, row j
being the step on scenario j alone — on the single-function path and the
level 6 harness alike.  A scenario raising a value outside the Exception
class — SystemExit from sys.exit() — escapes the handler: the loop aborts
with it, the remaining scenarios never execute and no rows are returned. -/
theorem isolation_for_catchable_exceptions :
    (∀ (ns : PyNamespace) (m : String) (i : Nat) (tc : TestCase) (e : PyExc),
      m.isEmpty = false → ns.keys.contains m = true →
      ns.call m (splatArgs tc.input) = Except.error e → e.isException = true →
      singleStep ns (some m) i tc =
        Except.ok { test_number := i + 1, passed := false, input := tc.input,
                    expected := tc.output, actual := Option.none,
                    error := some ("Test execution error: " ++ e.msg) }) ∧
    (∀ (ns : PyNamespace) (code : Except String (List PyNode)) (tcs : List TestCase)
        (rows : List TestResult),
      run_single_function_tests ns code tcs = Except.ok rows →
      rows.length = tcs.length ∧
      ∀ (j : Nat) (tc : TestCase), tcs.get? j = some tc →
        rows.get? j = (singleStep ns (extract_main_function code) j tc).toOption) ∧
    (∀ (ns : PyNamespace) (code : Except String (List PyNode)) (tcs : List TestCase)
        (j : Nat) (tc : TestCase) (e : PyExc),
      tcs.get? j = some tc →
      singleStep ns (extract_main_function code) j tc = Except.error e →
      (∀ (k : Nat) (tck : TestCase), k < j → tcs.get? k = some tck →
        ∃ r, singleStep ns (extract_main_function code) k tck = Except.ok r) →
      run_single_function_tests ns code tcs = Except.error e) ∧
    (∀ (ns : PyNamespace) (j : Nat) (sc : FuncScenario) (e : PyExc),
      ns.keys.contains sc.func = true →
      ns.call sc.func [sc.input] = Except.error e → e.isException = true →
      funcStep6 ns j sc =
        Except.ok { test_number := j + 1, passed := false, input := sc.input,
                    expected := sc.expected, actual := Option.none,
                    error := some ("Test execution error: " ++ e.msg) }) := by
  refine ⟨?_, ?_, ?_, ?_⟩
  · intro ns m i tc e hempty hkey hcall hcatch
    have hmem : m ∈ ns.keys := by simpa using hkey
    simp [singleStep, hempty, hkey, hmem, hcall, hcatch]
  · intro ns code tcs rows hrows
    exact ⟨enumLoopE_ok_length _ 0 tcs rows hrows,
      fun j tc htc => by
        have h := enumLoopE_ok_get? (singleStep ns (extract_main_function code))
          0 tcs rows hrows j
        rw [h, htc]
        simp⟩
  · intro ns code tcs j tc e htc hstep hok
    exact enumLoopE_abort (singleStep ns (extract_main_function code)) 0 j tcs tc e htc
      (by simpa using hstep) (fun k tck hk hg => by simpa using hok k tck hk hg)
  · intro ns j sc e hkey hcall hcatch
    have hmem : sc.func ∈ ns.keys := by simpa using hkey
    simp [funcStep6, hkey, hmem, hcall, hcatch]

/-- Witness for the amended C6 theorem at concrete inputs: the
ZeroDivisionError scenario is recorded as a failing row without aborting, and
the SystemExit scenario aborts the two-scenario loop with no rows. -/
theorem isolation_catchable_witness :
    singleStep nsIso (some ("f")) 0
        { input := .num 1, output := .num 2, function := Option.none } =
      Except.ok { test_number := 1, passed := false, input := .num 1, expected := .num 2,
                  actual := Option.none,
                  error := some ("Test execution error: " ++
                    "ZeroDivisionError: division by zero") } ∧
    run_single_function_tests nsExit subExitFn.ast tcsIso = Except.error sysExit :=
  ⟨isolation_for_catchable_exceptions.1 nsIso ("f") 0
      { input := .num 1, output := .num 2, function := Option.none }
      { msg := "ZeroDivisionError: division by zero", isException := true }
      rfl (by decide) (by simp [nsIso, splatArgs]) rfl,
   isolation_for_catchable_exceptions.2.2.1 nsExit subExitFn.ast tcsIso 0
      { input := .num 1, output := .num 2, function := Option.none } sysExit rfl
      (by
        have hne : (("calculate_discriminant" : String).isEmpty) = false := rfl
        simp [singleStep, extract_main_function, subExitFn, bfsFirstFuncDef,
              nsExit, splatArgs, sysExit, hne])
      (fun k tck hk _ => absurd hk (Nat.not_lt_zero k))⟩

/-- C8 counterexample: the claim says every output comparison during
validation uses one engine-wide tolerance.  The level 8 z-score row accepts an
element 0.05 away from its expectation — the element-wise comparison there is
passed tolerance 0.1 — while compare_outputs at its default 0.01 rejects the
same pair; the two tolerances differ. -/
theorem zscore_call_site_uses_looser_tolerance :
    (run_level_8_tests ns8 []).map (fun rows => (rows.get? 2).map (fun r => r.passed)) =
      Except.ok (some true) ∧
    compare_outputs (.num (-136/100)) (.num (-141/100)) defaultTolerance = false ∧
    zScoreTolerance ≠ defaultTolerance := by
  refine ⟨?_, ?_, ?_⟩
  · have hsd : ¬ (("calculate_std_dev" : String) = "calculate_z_scores") := by decide
    norm_num [run_level_8_tests, enumLoopE, level8_scenarios, funcStep8, ns8,
              typeError, Value.asSeq, zScoreZip, compare_outputs, zScoreTolerance,
              defaultTolerance, abs_lt, Except.map, hsd]
  · norm_num [compare_outputs, defaultTolerance, abs_lt]
  · norm_num [zScoreTolerance, defaultTolerance]

/-- C8, amended: every comparison the harnesses perform goes through
compare_outputs at the default tolerance 0.01, with one exception: the
element-wise z-score comparison of run_level_8_tests, which uses 0.1.  The
conjuncts fix the pass decision of each call site. -/
theorem tolerance_uniform_except_zscores :
    (∀ (ns : PyNamespace) (m : String) (i : Nat) (tc : TestCase) (actual : Value),
      m.isEmpty = false → ns.keys.contains m = true →
      ns.call m (splatArgs tc.input) = Except.ok actual →
      (singleStep ns (some m) i tc).map (fun r => r.passed) =
        Except.ok (compare_outputs actual tc.output defaultTolerance)) ∧
    (∀ (ns : PyNamespace) (i : Nat) (sc : FuncScenario) (actual : Value),
      ns.keys.contains sc.func = true → ns.call sc.func [sc.input] = Except.ok actual →
      (funcStep6 ns i sc).map (fun r => r.passed) =
        Except.ok (compare_outputs actual sc.expected defaultTolerance)) ∧
    (∀ (ns : PyNamespace) (i : Nat) (sc : FuncScenario) (actual : Value),
      ns.keys.contains sc.func = true →
      ns.call sc.func (splatArgs sc.input) = Except.ok actual →
      (funcStepSplat ns i sc).map (fun r => r.passed) =
        Except.ok (compare_outputs actual sc.expected defaultTolerance)) ∧
    (∀ (ns : PyNamespace) (i : Nat) (sc : ClassScenario) (inst : PyInstance) (actual : Value),
      ns.keys.contains sc.cls = true → ns.instantiate sc.cls [sc.init_data] = Except.ok inst →
      inst.hasAttr sc.method = true →
      inst.callMethod sc.method (sc.method_args.getD []) = Except.ok actual →
      (classStep10 ns i sc).map (fun r => r.passed) =
        Except.ok (compare_outputs actual sc.expected defaultTolerance)) ∧
    (∀ (ns : PyNamespace) (i : Nat) (sc : FuncScenario) (actual : Value),
      ns.keys.contains sc.func = true → ns.call sc.func [sc.input] = Except.ok actual →
      ¬ sc.func = "calculate_z_scores" →
      (funcStep8 ns i sc).map (fun r => r.passed) =
        Except.ok (compare_outputs actual sc.expected defaultTolerance)) ∧
    (∀ (ns : PyNamespace) (i : Nat) (sc : FuncScenario) (actual : Value)
        (xs ys : List Value),
      ns.keys.contains sc.func = true → ns.call sc.func [sc.input] = Except.ok actual →
      sc.func = "calculate_z_scores" → actual.asSeq = some xs → sc.expected.asSeq = some ys →
      (funcStep8 ns i sc).map (fun r => r.passed) =
        Except.ok (decide (xs.length = ys.length) && zScoreZip xs ys)) ∧
    (∀ (a e : Value) (as es : List Value),
      zScoreZip (a :: as) (e :: es) = (compare_outputs a e zScoreTolerance && zScoreZip as es)) ∧
    (zScoreTolerance = 1/10 ∧ defaultTolerance = 1/100) := by
  refine ⟨?_, ?_, ?_, ?_, ?_, ?_, fun a e as es => rfl, rfl, rfl⟩
  · intro ns m i tc actual hempty hkey hcall
    have hmem : m ∈ ns.keys := by simpa using hkey
    simp [singleStep, hempty, hkey, hmem, hcall, Except.map]
  · intro ns i sc actual hkey hcall
    have hmem : sc.func ∈ ns.keys := by simpa using hkey
    simp [funcStep6, hkey, hmem, hcall, Except.map]
  · intro ns i sc actual hkey hcall
    have hmem : sc.func ∈ ns.keys := by simpa using hkey
    simp [funcStepSplat, hkey, hmem, hcall, Except.map]
  · intro ns i sc inst actual hkey hinst hattr hcall
    have hmem : sc.cls ∈ ns.keys := by simpa using hkey
    simp [classStep10, hkey, hmem, hinst, hattr, hcall, Except.map]
  · intro ns i sc actual hkey hcall hnz
    have hmem : sc.func ∈ ns.keys := by simpa using hkey
    have hfz : (sc.func == "calculate_z_scores") = false := by
      simpa using hnz
    simp [funcStep8, hkey, hmem, hcall, hfz, Except.map]
  · intro ns i sc actual xs ys hkey hcall hz hxs hys
    have hmem : sc.func ∈ ns.keys := by simpa using hkey
    have hfz : (sc.func == "calculate_z_scores") = true := by
      simpa using hz
    simp [funcStep8, hkey, hmem, hcall, hfz, hxs, hys, Except.map]

/-- Witness for the amended C8 theorem: a level 6 row compares its output at
the default tolerance, and the level 8 z-score row is decided by the
0.1-tolerance element-wise comparison. -/
theorem tolerance_witness :
    (funcStep6 nsHelper 0
        { func := "helper", input := .num 1, expected := .num 999, desc := "" }).map
        (fun r => r.passed) =
      Except.ok (compare_outputs (.num 999) (.num 999) defaultTolerance) ∧
    (funcStep8 ns8 2
        { func := "calculate_z_scores",
          input := .list [.num 1, .num 2, .num 3, .num 4, .num 5],
          expected := .list [.num (-141/100), .num (-71/100), .num 0,
                             .num (71/100), .num (141/100)],
          desc := "" }).map (fun r => r.passed) =
      Except.ok (decide ((5 : Nat) = 5) &&
        zScoreZip [.num (-136/100), .num (-71/100), .num (5/100), .num (71/100), .num (141/100)]
          [.num (-141/100), .num (-71/100), .num 0, .num (71/100), .num (141/100)]) :=
  ⟨tolerance_uniform_except_zscores.2.1 nsHelper 0
      { func := "helper", input := .num 1, expected := .num 999, desc := "" }
      (.num 999) (by decide) (by simp [nsHelper]),
   tolerance_uniform_except_zscores.2.2.2.2.2.1 ns8 2
      { func := "calculate_z_scores",
        input := .list [.num 1, .num 2, .num 3, .num 4, .num 5],
        expected := .list [.num (-141/100), .num (-71/100), .num 0,
                           .num (71/100), .num (141/100)],
        desc := "" }
      (.list [.num (-136/100), .num (-71/100), .num (5/100), .num (71/100), .num (141/100)])
      [.num (-136/100), .num (-71/100), .num (5/100), .num (71/100), .num (141/100)]
      [.num (-141/100), .num (-71/100), .num 0, .num (71/100), .num (141/100)]
      (by decide) (by simp [ns8]) rfl rfl rfl⟩

/-- C10: the symbol the single-function fallback tests is always the first
function definition the walk of the syntax tree meets — the name of the first
top-level FunctionDef when nothing before it at top level is one — and every
declared test case is invoked on that one symbol.  Consequently a correct
level 1 submission that defines a helper before calculate_discriminant, whose
target computes every expected output, has every test case invoked on the
helper: every row's actual value is the helper's answer and validation
fails. -/
theorem first_funcdef_is_the_tested_symbol :
    (∀ (pre : List PyNode) (name : String) (cs rest : List PyNode),
      pre.all (fun n => !n.isFuncDef) = true →
      bfsFirstFuncDef (pre ++ .funcDef name cs :: rest) = some name) ∧
    (∀ (ns : PyNamespace) (code : Except String (List PyNode)) (tcs : List TestCase)
        (rows : List TestResult) (j : Nat) (tc : TestCase),
      run_single_function_tests ns code tcs = Except.ok rows →
      tcs.get? j = some tc →
      rows.get? j = (singleStep ns (extract_main_function code) j tc).toOption) ∧
    (extract_main_function subHelper.ast = some ("helper") ∧
     (∀ tc ∈ level1.test_cases,
       nsHelper.call ("calculate_discriminant") (splatArgs tc.input) = Except.ok tc.output) ∧
     (execute_test_cases subHelper level1.test_cases).map (List.map (fun r => r.actual)) =
       Except.ok [some (.num 999), some (.num 999), some (.num 999)] ∧
     (validate_solution 1 subHelper).map (fun rep => rep.valid) = Except.ok false) := by
  refine ⟨bfs_first_after_clean_front, ?_, ?_, ?_, ?_, ?_⟩
  · intro ns code tcs rows j tc hrows htc
    rw [enumLoopE_ok_get? (singleStep ns (extract_main_function code)) 0 tcs rows hrows j,
        htc]
    simp
  · simp [extract_main_function, subHelper, bfsFirstFuncDef]
  · intro tc htc
    simp only [level1, List.mem_cons, List.not_mem_nil, or_false] at htc
    rcases htc with h | h | h <;> subst h <;>
      norm_num [nsHelper, splatArgs]
  · have hdetect : detect_level_type nsHelper = "single_function" := by decide
    have hrun : subHelper.run = ExecOutcome.ok nsHelper := rfl
    have hmain : extract_main_function subHelper.ast = some ("helper") := by
      simp [extract_main_function, subHelper, bfsFirstFuncDef]
    have hmain' : extract_main_function
        (Except.ok [PyNode.funcDef ("helper") [], PyNode.funcDef ("calculate_discriminant") []]) =
        some ("helper") := by
      simp [extract_main_function, bfsFirstFuncDef]
    have h6 : (("single_function" : String) == "level_6") = false := by decide
    have h7 : (("single_function" : String) == "level_7") = false := by decide
    have h8 : (("single_function" : String) == "level_8") = false := by decide
    have h9 : (("single_function" : String) == "level_9") = false := by decide
    have h10 : (("single_function" : String) == "level_10") = false := by decide
    have hne : (("helper" : String).isEmpty) = false := rfl
    simp [execute_test_cases, hrun, hdetect, h6, h7, h8, h9, h10,
          run_single_function_tests, hmain, hmain']
    norm_num [enumLoopE, level1, singleStep, splatArgs, nsHelper, hne,
              compare_outputs, defaultTolerance, abs_lt, Except.map]
  · have hdetect : detect_level_type nsHelper = "single_function" := by decide
    have hlvl : get_level 1 = some level1 := rfl
    have hast : subHelper.ast =
        Except.ok [PyNode.funcDef ("helper") [], PyNode.funcDef ("calculate_discriminant") []] := rfl
    have hne : (("helper" : String).isEmpty) = false := rfl
    have hrun : subHelper.run = ExecOutcome.ok nsHelper := rfl
    have hmain : extract_main_function subHelper.ast = some ("helper") := by
      simp [extract_main_function, subHelper, bfsFirstFuncDef]
    have hmain' : extract_main_function
        (Except.ok [PyNode.funcDef ("helper") [], PyNode.funcDef ("calculate_discriminant") []]) =
        some ("helper") := by
      simp [extract_main_function, bfsFirstFuncDef]
    have h6 : (("single_function" : String) == "level_6") = false := by decide
    have h7 : (("single_function" : String) == "level_7") = false := by decide
    have h8 : (("single_function" : String) == "level_8") = false := by decide
    have h9 : (("single_function" : String) == "level_9") = false := by decide
    have h10 : (("single_function" : String) == "level_10") = false := by decide
    simp [validate_solution, hlvl, hast, execute_test_cases, hrun, hdetect,
          h6, h7, h8, h9, h10, run_single_function_tests, hmain, hmain']
    norm_num [enumLoopE, level1, singleStep, splatArgs, nsHelper, hne,
              compare_outputs, defaultTolerance, abs_lt, Except.map]

/-- Witness for the C10 theorem: the walk picks the first definition past a
non-definition prefix, and row zero of the completed isolation run is the
step on its own scenario. -/
theorem first_funcdef_witness :
    bfsFirstFuncDef [.other [], .funcDef ("g") [], .funcDef ("h") []] = some ("g") ∧
    rowsIso.get? 0 =
      (singleStep nsIso (extract_main_function astF) 0
        { input := .num 1, output := .num 2, function := Option.none }).toOption :=
  ⟨first_funcdef_is_the_tested_symbol.1 [.other []] ("g") [] [.funcDef ("h") []] (by decide),
   first_funcdef_is_the_tested_symbol.2.1 nsIso astF tcsIso rowsIso 0
     { input := .num 1, output := .num 2, function := Option.none }
     run_single_iso_eval rfl⟩
